import Mathlib

/-!
Verification of the balance-and-aging computation engine of the
accounts-receivable (CxC) pipeline.

The engine lives in three Python modules built on pandas DataFrames:

* `src/reporte_cxc.py` — operational report: per-invoice balance
  (`SALDO_FACTURA`), per-client running balance (`SALDO_CLIENTE`),
  collection-cycle metrics (`DELTA_RECAUDO`, `DELTA_MORA` and their
  categories), z-score enrichment, and the open/closed invoice views.
* `src/kpis.py` — strategic KPIs: per-invoice balance table, DSO, CEI,
  delinquency, Pareto/ABC concentration.
* `src/auditor.py` — anomaly auditor: outlier flags over charge amounts
  and over the two delta metrics, missing-reference flags, cancelled
  document analysis, and the aggregated summary.

Modelling conventions of this shallow embedding:

* A DataFrame row is a `Fila` record; the optional columns that the code
  probes with `"COL" in df.columns` are modelled as boolean presence
  flags on `Tabla`.  Cell-level missingness (`NaN` / `NaT`) is `Option`.
* Monetary values and day counts are exact rationals (`ℚ`).  The pandas
  `round(n)` method (IEEE round-half-to-even on the scaled value) is
  modelled by `redondeaMitadPar` / `roundN`; on values that are exact
  multiples of `10 ^ (-n)` — the only values the proofs evaluate it on —
  this agrees with the float computation.
* A pandas z-score `z = |x - mean| / std` needs a square root, which is
  not rational; since the code only stores `z` and compares `z ≥ umbral`
  with `umbral ≥ 0`, every site is embedded through the squared z-score
  `z² = (x - mean)² / var`, and the comparison becomes
  `umbral² * var ≤ (x - mean)²`.  `Series.std()` in pandas uses the
  sample variance (`ddof = 1`), which is what `varMuestral` computes.
* The raw `CANCELADO` cell is a `String`; the Microsip marker list
  `["S", "SI", "s", "si", 1, True, "1"]` is modelled by its string
  forms (the numeric and boolean variants collapse to "1" and "TRUE").
* The `_BAND_GROUP` banding applied by `agregar_bandas_grupo` is a
  presentation-only stable re-sort plus an alternating 0/1 column; it
  preserves the row multiset and is not modelled.
-/

namespace CxC

/-- Round a rational to the nearest integer, ties to even — the rounding
used by numpy/pandas `round`. -/
def redondeaMitadPar (x : ℚ) : ℤ :=
  if x - (⌊x⌋ : ℚ) < 1/2 then ⌊x⌋
  else if 1/2 < x - (⌊x⌋ : ℚ) then ⌊x⌋ + 1
  else if ⌊x⌋ % 2 = 0 then ⌊x⌋ else ⌊x⌋ + 1

/-- Model of the pandas `Series.round(d)` method applied to one value. -/
def roundN (d : ℕ) (x : ℚ) : ℚ :=
  (redondeaMitadPar (x * (10 : ℚ) ^ d) : ℚ) / (10 : ℚ) ^ d

/-- Rounding to 2 decimals, the monetary rounding used throughout. -/
def round2 (x : ℚ) : ℚ := roundN 2 x

/-- A rational is a whole number of cents. -/
def Centavos (x : ℚ) : Prop := ∃ k : ℤ, x = (k : ℚ) / 100

instance : DecidablePred Centavos := fun x =>
  decidable_of_iff (x * 100 = ((x * 100).num : ℚ))
    (by
      constructor
      · intro h
        exact ⟨(x * 100).num, by rw [← h]; field_simp⟩
      · rintro ⟨k, rfl⟩
        norm_num)

theorem redondeaMitadPar_intCast (n : ℤ) : redondeaMitadPar (n : ℚ) = n := by
  unfold redondeaMitadPar
  rw [Int.floor_intCast]
  norm_num

theorem redondeaMitadPar_sub_le (x : ℚ) :
    |(redondeaMitadPar x : ℚ) - x| ≤ 1/2 := by
  unfold redondeaMitadPar
  have hfl : (⌊x⌋ : ℚ) ≤ x := Int.floor_le x
  have hfu : x < (⌊x⌋ : ℚ) + 1 := Int.lt_floor_add_one x
  split_ifs with h1 h2 h3
  · rw [abs_sub_comm, abs_of_nonneg (by linarith)]
    linarith
  · push_cast
    rw [abs_of_nonneg (by linarith)]
    linarith
  · have heq : x - (⌊x⌋ : ℚ) = 1/2 := le_antisymm (not_lt.mp h2) (not_lt.mp h1)
    rw [abs_sub_comm, abs_of_nonneg (by linarith)]
    linarith
  · have heq : x - (⌊x⌋ : ℚ) = 1/2 := le_antisymm (not_lt.mp h2) (not_lt.mp h1)
    push_cast
    rw [abs_of_nonneg (by linarith)]
    linarith

theorem redondeaMitadPar_nonneg {x : ℚ} (hx : 0 ≤ x) :
    0 ≤ redondeaMitadPar x := by
  unfold redondeaMitadPar
  have h0 : (0:ℤ) ≤ ⌊x⌋ := Int.floor_nonneg.mpr hx
  split_ifs <;> omega

theorem round2_centavos (x : ℚ) : Centavos (round2 x) :=
  ⟨redondeaMitadPar (x * 100), by
    unfold round2 roundN
    norm_num⟩

theorem round2_eq_self {x : ℚ} (hx : Centavos x) : round2 x = x := by
  obtain ⟨k, rfl⟩ := hx
  unfold round2 roundN
  have h : (k : ℚ) / 100 * 10 ^ 2 = (k : ℚ) := by
    field_simp
    left
    norm_num
  rw [h, redondeaMitadPar_intCast]
  norm_num

theorem round2_sub_le (x : ℚ) : |round2 x - x| ≤ 1/200 := by
  unfold round2 roundN
  have h := redondeaMitadPar_sub_le (x * 10 ^ 2)
  have key : (redondeaMitadPar (x * 10 ^ 2) : ℚ) / 10 ^ 2 - x
      = ((redondeaMitadPar (x * 10 ^ 2) : ℚ) - x * 10 ^ 2) / 10 ^ 2 := by
    ring
  rw [key, abs_div]
  have habs : |(10:ℚ) ^ 2| = 100 := by norm_num
  rw [habs]
  linarith

theorem round2_nonneg {x : ℚ} (hx : 0 ≤ x) : 0 ≤ round2 x := by
  unfold round2 roundN
  have := redondeaMitadPar_nonneg (x := x * 10 ^ 2) (by positivity)
  positivity

theorem centavos_add {x y : ℚ} (hx : Centavos x) (hy : Centavos y) :
    Centavos (x + y) := by
  obtain ⟨k, rfl⟩ := hx
  obtain ⟨m, rfl⟩ := hy
  exact ⟨k + m, by push_cast; ring⟩

theorem centavos_neg {x : ℚ} (hx : Centavos x) : Centavos (-x) := by
  obtain ⟨k, rfl⟩ := hx
  exact ⟨-k, by push_cast; ring⟩

theorem centavos_sub {x y : ℚ} (hx : Centavos x) (hy : Centavos y) :
    Centavos (x - y) := by
  rw [sub_eq_add_neg]
  exact centavos_add hx (centavos_neg hy)

theorem centavos_zero : Centavos 0 := ⟨0, by norm_num⟩

theorem centavos_sum {l : List ℚ} (h : ∀ x ∈ l, Centavos x) :
    Centavos l.sum := by
  induction l with
  | nil => simpa using centavos_zero
  | cons a l ih =>
      rw [List.sum_cons]
      exact centavos_add (h a (List.mem_cons_self a l))
        (ih fun x hx => h x (List.mem_cons_of_mem a hx))

-- ====================================================================
-- DATA MODEL
-- ====================================================================

/-- One row of the master CxC transaction table, together with the
columns that the pipeline adds to it.  Raw columns mirror the query
(`DOCTO_CC_ID`, `DOCTO_CC_ACR_ID`, `TIPO_IMPTE`, `NOMBRE_CLIENTE`,
`IMPORTE`, `IMPUESTO`, `CANCELADO`, `TIPO_CLIENTE`, `VENDEDOR`,
`FECHA_EMISION`, `FECHA_VENCIMIENTO`); dates are day numbers.  Derived
columns start as `none` / `""` exactly like freshly-initialised pandas
columns.  Z-score columns store the squared z-score (see the header
comment). -/
structure Fila where
  doctoCcId : Option ℤ := none
  doctoCcAcrId : Option ℤ := none
  tipoImpte : String := ""
  nombreCliente : String := ""
  importe : Option ℚ := some 0
  impuesto : Option ℚ := some 0
  cancelado : String := "N"
  tipoCliente : Option String := some ""
  vendedor : Option String := some ""
  fechaEmision : Option ℤ := none
  fechaVencimiento : Option ℤ := none
  saldoFactura : Option ℚ := none
  deltaRecaudo : Option ℚ := none
  categoriaRecaudo : String := ""
  deltaMora : Option ℚ := none
  categoriaMora : String := ""
  saldoCliente : Option ℚ := none
  zsqImporte : Option ℚ := none
  atipicoImporte : Option Bool := none
  zsqDeltaRecaudo : Option ℚ := none
  atipicoDeltaRecaudo : Option Bool := none
  zsqDeltaMora : Option ℚ := none
  atipicoDeltaMora : Option Bool := none
  deriving DecidableEq, Repr

/-- A DataFrame: its rows plus presence flags for the optional columns
that the code probes with `"COL" in df.columns`. -/
structure Tabla where
  filas : List Fila
  tieneAcrId : Bool := true
  tieneDoctoId : Bool := true
  tieneCancelado : Bool := true
  tieneTipoCliente : Bool := true
  tieneVendedor : Bool := true
  deriving DecidableEq, Repr

/-- Monetary amount of a row: `IMPORTE + IMPUESTO`.  The pipeline always
runs on rows normalised by `_preparar` (`fillna(0)`), which
`prepararNumericos` models, so reading a missing cell as 0 is faithful. -/
def monto (r : Fila) : ℚ := r.importe.getD 0 + r.impuesto.getD 0

/-- Model of the `fillna(0)` applied to the numeric columns by the
`_preparar` functions of `reporte_cxc.py` and `kpis.py`. -/
def prepararNumericos (t : Tabla) : Tabla :=
  { t with filas := t.filas.map fun r =>
      { r with importe := some (r.importe.getD 0),
               impuesto := some (r.impuesto.getD 0) } }

/-- String forms of `_CANCELADO_VALUES = ["S", "SI", "s", "si", 1, True,
"1"]`. -/
def valoresCancelado : List String := ["S", "SI", "s", "si", "1", "TRUE"]

/-- Whether a `CANCELADO` cell marks the document as cancelled. -/
def esCancelado (r : Fila) : Bool := r.cancelado ∈ valoresCancelado

end CxC

namespace CxC.ReporteCxc

/-- Embedding of `reporte_cxc._filtrar_movimientos`: drop cancelled
documents (when the `CANCELADO` column exists) and type-A movements. -/
def filtrarMovimientos (t : Tabla) : Tabla :=
  let f1 := if t.tieneCancelado
    then t.filas.filter (fun r => !esCancelado r) else t.filas
  { t with filas := f1.filter (fun r => r.tipoImpte ≠ "A") }

/-- Sum of `IMPORTE + IMPUESTO` over the payment rows (`TIPO_IMPTE = 'R'`)
whose non-null `DOCTO_CC_ACR_ID` equals the given charge id: the
`groupby("DOCTO_CC_ACR_ID")["_MONTO"].sum()` lookup with `fillna(0)`.
A charge with a null `DOCTO_CC_ID` maps to no group, hence 0. -/
def abonosVinculados (filas : List Fila) : Option ℤ → ℚ
  | none => 0
  | some i =>
      ((filas.filter fun p =>
        p.tipoImpte = "R" ∧ p.doctoCcAcrId = some i).map monto).sum

/-- Embedding of `reporte_cxc._calcular_saldo_factura`: each charge row
(`TIPO_IMPTE = 'C'`) gets `SALDO_FACTURA = round2((IMPORTE + IMPUESTO) -
abonos vinculados)`; if either linkage column is missing the fallback
sets the balance to the full charge amount.  Non-charge rows keep a null
balance. -/
def calcularSaldoFactura (t : Tabla) : Tabla :=
  { t with filas :=
      if t.tieneAcrId ∧ t.tieneDoctoId then
        t.filas.map fun r =>
          if r.tipoImpte = "C" then
            { r with saldoFactura := (some
                (round2 (monto r - abonosVinculados t.filas r.doctoCcId))) }
          else r
      else
        t.filas.map fun r =>
          if r.tipoImpte = "C" then
            { r with saldoFactura := some (round2 (monto r)) }
          else r }

end CxC.ReporteCxc

namespace CxC

/-- Definition written from the specification text, for comparison with
the code: the invoice balance of a charge is the charge amount
(principal plus tax) minus the sum of (principal plus tax) over all
payment rows whose reference id equals the charge id, zero when no
payment references the charge, rounded to 2 decimals. -/
def saldoSegunSpec (filas : List Fila) (c : Fila) : ℚ :=
  round2 (monto c -
    ((filas.filter fun p =>
      p.tipoImpte = "R" ∧ p.doctoCcAcrId.isSome ∧
        p.doctoCcAcrId = c.doctoCcId).map monto).sum)

theorem abonosVinculados_eq_spec (filas : List Fila) (c : Fila) :
    ReporteCxc.abonosVinculados filas c.doctoCcId =
      ((filas.filter fun p =>
        p.tipoImpte = "R" ∧ p.doctoCcAcrId.isSome ∧
          p.doctoCcAcrId = c.doctoCcId).map monto).sum := by
  cases h : c.doctoCcId with
  | none =>
      have hnil : (filas.filter fun p =>
          (p.tipoImpte = "R" ∧ p.doctoCcAcrId.isSome ∧
            p.doctoCcAcrId = none : Prop)) = [] := by
        apply List.filter_eq_nil_iff.mpr
        intro p _
        simp only [decide_eq_true_eq, not_and]
        intro _ hs he
        rw [he] at hs
        simp at hs
      rw [hnil]
      simp [ReporteCxc.abonosVinculados]
  | some i =>
      simp only [ReporteCxc.abonosVinculados]
      have hfe : (filas.filter fun p =>
          (p.tipoImpte = "R" ∧ p.doctoCcAcrId = some i : Prop))
          = filas.filter fun p =>
            (p.tipoImpte = "R" ∧ p.doctoCcAcrId.isSome ∧
              p.doctoCcAcrId = some i : Prop) := by
        apply List.filter_congr
        intro p _
        simp only [decide_eq_decide, Option.isSome_iff_exists]
        constructor
        · rintro ⟨h1, h2⟩
          exact ⟨h1, ⟨i, h2⟩, h2⟩
        · rintro ⟨h1, _, h2⟩
          exact ⟨h1, h2⟩
      rw [hfe]

end CxC

namespace CxC.Kpis

/-- Embedding of `kpis._filtrar_activos` (same filter as
`reporte_cxc._filtrar_movimientos`): drop cancelled documents and
type-A movements. -/
def filtrarActivos (t : Tabla) : Tabla :=
  let f1 := if t.tieneCancelado
    then t.filas.filter (fun r => !esCancelado r) else t.filas
  { t with filas := f1.filter (fun r => r.tipoImpte ≠ "A") }

/-- One row of the per-invoice balance table built by
`kpis._saldos_por_factura`. -/
structure SaldoFac where
  doctoCcId : Option ℤ
  nombreCliente : String
  fechaVencimiento : Option ℤ
  fechaEmision : Option ℤ
  montoCargo : ℚ
  montoAbonos : ℚ
  saldo : ℚ
  deriving DecidableEq, Repr

/-- Embedding of `kpis._saldos_por_factura`: one output row per charge;
`MONTO_ABONOS` is the left-joined payment sum (`fillna(0)`), present only
when both linkage columns exist; `SALDO = round2(MONTO_CARGO -
MONTO_ABONOS)`. -/
def saldosPorFactura (t : Tabla) : List SaldoFac :=
  (t.filas.filter fun r => r.tipoImpte = "C").map fun c =>
    let ma : ℚ := if t.tieneAcrId ∧ t.tieneDoctoId
      then ReporteCxc.abonosVinculados t.filas c.doctoCcId else 0
    { doctoCcId := c.doctoCcId
      nombreCliente := c.nombreCliente
      fechaVencimiento := c.fechaVencimiento
      fechaEmision := c.fechaEmision
      montoCargo := monto c
      montoAbonos := ma
      saldo := round2 (monto c - ma) }

end CxC.Kpis

namespace CxC

theorem tipoImpte_calcularSaldoFactura (t : Tabla) (r : Fila)
    (hr : r ∈ (ReporteCxc.calcularSaldoFactura t).filas) :
    ∃ a ∈ t.filas, r = (if a.tipoImpte = "C"
      then { a with saldoFactura := r.saldoFactura } else a) ∧
      r.tipoImpte = a.tipoImpte := by
  unfold ReporteCxc.calcularSaldoFactura at hr
  by_cases h : (t.tieneAcrId ∧ t.tieneDoctoId : Prop)
  · rw [if_pos h] at hr
    obtain ⟨a, ha, rfl⟩ := List.mem_map.mp hr
    refine ⟨a, ha, ?_⟩
    by_cases hc : a.tipoImpte = "C"
    · simp [hc]
    · simp [hc]
  · rw [if_neg h] at hr
    obtain ⟨a, ha, rfl⟩ := List.mem_map.mp hr
    refine ⟨a, ha, ?_⟩
    by_cases hc : a.tipoImpte = "C"
    · simp [hc]
    · simp [hc]

theorem saldoFactura_map_eq (u : Tabla)
    (hA : u.tieneAcrId = true) (hD : u.tieneDoctoId = true) :
    (((ReporteCxc.calcularSaldoFactura u).filas.filter
        fun r => r.tipoImpte = "C").map fun r => r.saldoFactura)
      = ((u.filas.filter fun r => r.tipoImpte = "C").map fun c =>
          some (saldoSegunSpec u.filas c)) := by
  unfold ReporteCxc.calcularSaldoFactura
  rw [if_pos (by rw [hA, hD]; exact ⟨rfl, rfl⟩)]
  simp only []
  rw [List.filter_map]
  have hpres : ∀ a : Fila,
      ((fun r : Fila => decide (r.tipoImpte = "C")) ∘ fun r : Fila =>
        if r.tipoImpte = "C" then
          { r with saldoFactura := (some
              (round2 (monto r - ReporteCxc.abonosVinculados u.filas r.doctoCcId))) }
        else r) a
      = decide (a.tipoImpte = "C") := by
    intro a
    by_cases hc : a.tipoImpte = "C"
    · simp [hc]
    · simp [hc]
  rw [List.filter_congr fun a _ => hpres a]
  rw [List.map_map]
  apply List.map_congr_left
  intro a ha
  have hc : a.tipoImpte = "C" := by
    have := List.of_mem_filter ha
    simpa using this
  simp only [Function.comp, if_pos hc]
  unfold saldoSegunSpec
  rw [abonosVinculados_eq_spec]

theorem saldosPorFactura_map_eq (u : Tabla)
    (hA : u.tieneAcrId = true) (hD : u.tieneDoctoId = true) :
    ((Kpis.saldosPorFactura u).map fun s => s.saldo)
      = ((u.filas.filter fun r => r.tipoImpte = "C").map
          fun c => saldoSegunSpec u.filas c) := by
  unfold Kpis.saldosPorFactura
  rw [List.map_map]
  apply List.map_congr_left
  intro a _
  simp only [Function.comp]
  rw [if_pos (by rw [hA, hD]; exact ⟨rfl, rfl⟩)]
  unfold saldoSegunSpec
  rw [abonosVinculados_eq_spec]

/-- C1: on the filtered (non-cancelled, non-advance) table, every charge
row gets `SALDO_FACTURA` equal to the charge amount (IMPORTE + IMPUESTO)
minus the sum of (IMPORTE + IMPUESTO) over the payment rows whose
reference id equals the charge id (zero when none), rounded to 2
decimals — both in `reporte_cxc._calcular_saldo_factura` and in
`kpis._saldos_por_factura`. -/
theorem saldoFactura_cumple_spec (t : Tabla)
    (hA : t.tieneAcrId = true) (hD : t.tieneDoctoId = true) :
    (((ReporteCxc.calcularSaldoFactura (ReporteCxc.filtrarMovimientos t)).filas.filter
        fun r => r.tipoImpte = "C").map fun r => r.saldoFactura)
      = (((ReporteCxc.filtrarMovimientos t).filas.filter
          fun r => r.tipoImpte = "C").map fun c =>
            some (saldoSegunSpec (ReporteCxc.filtrarMovimientos t).filas c))
    ∧ ((Kpis.saldosPorFactura (Kpis.filtrarActivos t)).map fun s => s.saldo)
      = (((Kpis.filtrarActivos t).filas.filter fun r => r.tipoImpte = "C").map
          fun c => saldoSegunSpec (Kpis.filtrarActivos t).filas c) := by
  have hAf : (ReporteCxc.filtrarMovimientos t).tieneAcrId = true := hA
  have hDf : (ReporteCxc.filtrarMovimientos t).tieneDoctoId = true := hD
  have hAk : (Kpis.filtrarActivos t).tieneAcrId = true := hA
  have hDk : (Kpis.filtrarActivos t).tieneDoctoId = true := hD
  constructor
  · exact saldoFactura_map_eq (ReporteCxc.filtrarMovimientos t) hAf hDf
  · exact saldosPorFactura_map_eq (Kpis.filtrarActivos t) hAk hDk

/-- Concrete five-row ledger: a charge with one linked partial payment,
a payment whose reference matches no charge, a cancelled charge and an
advance. -/
def tablaC1 : Tabla :=
  { filas := [
      { doctoCcId := some 1, tipoImpte := "C", nombreCliente := "ACME",
        importe := some 100, impuesto := some 16 },
      { doctoCcId := some 10, doctoCcAcrId := some 1, tipoImpte := "R",
        nombreCliente := "ACME", importe := some 50, impuesto := some 0 },
      { doctoCcId := some 11, doctoCcAcrId := some 9, tipoImpte := "R",
        nombreCliente := "ACME", importe := some 7, impuesto := some 0 },
      { doctoCcId := some 2, tipoImpte := "C", nombreCliente := "BETA",
        importe := some 30, impuesto := some 0, cancelado := "S" },
      { doctoCcId := some 3, tipoImpte := "A", importe := some 5 } ] }

/-- Witness for C1 at `tablaC1`: the hypotheses hold, the two balance
tables agree with the specification formula, and the single surviving
charge evaluates to `116 - 50 = 66`. -/
theorem saldoFactura_cumple_spec_witness :
    (tablaC1.tieneAcrId = true ∧ tablaC1.tieneDoctoId = true)
    ∧ ((((ReporteCxc.calcularSaldoFactura
          (ReporteCxc.filtrarMovimientos tablaC1)).filas.filter
        fun r => r.tipoImpte = "C").map fun r => r.saldoFactura)
      = (((ReporteCxc.filtrarMovimientos tablaC1).filas.filter
          fun r => r.tipoImpte = "C").map fun c =>
            some (saldoSegunSpec (ReporteCxc.filtrarMovimientos tablaC1).filas c))
    ∧ ((Kpis.saldosPorFactura (Kpis.filtrarActivos tablaC1)).map fun s => s.saldo)
      = (((Kpis.filtrarActivos tablaC1).filas.filter fun r => r.tipoImpte = "C").map
          fun c => saldoSegunSpec (Kpis.filtrarActivos tablaC1).filas c))
    ∧ ((Kpis.saldosPorFactura (Kpis.filtrarActivos tablaC1)).map fun s => s.saldo)
      = [66] :=
  ⟨⟨rfl, rfl⟩, saldoFactura_cumple_spec tablaC1 rfl rfl, by
    have h66 : round2 (66:ℚ) = 66 := round2_eq_self ⟨6600, by norm_num⟩
    simp +decide [tablaC1, Kpis.filtrarActivos, Kpis.saldosPorFactura,
      ReporteCxc.abonosVinculados, monto, esCancelado, valoresCancelado,
      List.filter_cons]
    norm_num [h66]⟩

namespace Kpis

/-- Whether a date cell falls inside the analysis window — the
`(FECHA_EMISION >= inicio_periodo) & (FECHA_EMISION <= hoy)` mask; a
missing date (`NaT`) compares false. -/
def enPeriodo (inicio hoy : ℤ) (f : Option ℤ) : Bool :=
  match f with
  | some d => decide (inicio ≤ d) && decide (d ≤ hoy)
  | none => false

/-- Charges issued in the window: `IMPORTE + IMPUESTO` summed over
`TIPO_IMPTE = 'C'` rows with `FECHA_EMISION` inside the window. -/
def cargosPeriodo (fs : List Fila) (inicio hoy : ℤ) : ℚ :=
  ((fs.filter fun r =>
    decide (r.tipoImpte = "C") && enPeriodo inicio hoy r.fechaEmision).map monto).sum

/-- Payments received in the window: `IMPORTE + IMPUESTO` summed over
`TIPO_IMPTE = 'R'` rows with `FECHA_EMISION` inside the window. -/
def cobrosPeriodo (fs : List Fila) (inicio hoy : ℤ) : ℚ :=
  ((fs.filter fun r =>
    decide (r.tipoImpte = "R") && enPeriodo inicio hoy r.fechaEmision).map monto).sum

/-- Net current balance used by `_calcular_cei`: all charge amounts
minus all payment amounts over the active rows. -/
def saldoActualCei (fs : List Fila) : ℚ :=
  ((fs.filter fun r => decide (r.tipoImpte = "C")).map monto).sum
    - ((fs.filter fun r => decide (r.tipoImpte = "R")).map monto).sum

/-- Reconstructed opening balance:
`saldo_actual - cargos_periodo + cobros_periodo`. -/
def saldoInicioCei (fs : List Fila) (inicio hoy : ℤ) : ℚ :=
  saldoActualCei fs - cargosPeriodo fs inicio hoy + cobrosPeriodo fs inicio hoy

/-- Collectible amount: `saldo_inicio + cargos_periodo`. -/
def cobrableCei (fs : List Fila) (inicio hoy : ℤ) : ℚ :=
  saldoInicioCei fs inicio hoy + cargosPeriodo fs inicio hoy

/-- Embedding of the `VALOR` produced by `kpis._calcular_cei`:
`(cobros / cobrable) * 100` when the collectible amount is positive,
otherwise `100.0`, rounded to 1 decimal. -/
def calcularCei (fs : List Fila) (inicio hoy : ℤ) : ℚ :=
  roundN 1 (if 0 < cobrableCei fs inicio hoy
    then cobrosPeriodo fs inicio hoy / cobrableCei fs inicio hoy * 100
    else 100)

end Kpis

/-- C10: in the CEI computation the window-charges term cancels from the
collectible denominator: `cobrable = saldo_actual + cobros_periodo` for
every input, so the CEI depends on the window only through the payments
dated inside it — two windows with the same window-payments give the
same CEI on the same ledger. -/
theorem cei_cancela_cargos_periodo (fs : List Fila) (inicio hoy inicio2 hoy2 : ℤ)
    (h : Kpis.cobrosPeriodo fs inicio hoy = Kpis.cobrosPeriodo fs inicio2 hoy2) :
    Kpis.cobrableCei fs inicio hoy
      = Kpis.saldoActualCei fs + Kpis.cobrosPeriodo fs inicio hoy
    ∧ Kpis.calcularCei fs inicio hoy = Kpis.calcularCei fs inicio2 hoy2 := by
  have hid : ∀ i0 h0, Kpis.cobrableCei fs i0 h0
      = Kpis.saldoActualCei fs + Kpis.cobrosPeriodo fs i0 h0 := by
    intro i0 h0
    unfold Kpis.cobrableCei Kpis.saldoInicioCei
    ring
  refine ⟨hid inicio hoy, ?_⟩
  unfold Kpis.calcularCei
  rw [hid inicio hoy, hid inicio2 hoy2, h]

/-- Concrete ledger for the C10 witness: two charges issued on days 10
and 50, one payment on day 10. -/
def filasC10 : List Fila :=
  [ { doctoCcId := some 1, tipoImpte := "C", importe := some 100,
      impuesto := some 0, fechaEmision := some 10 },
    { doctoCcId := some 2, tipoImpte := "C", importe := some 200,
      impuesto := some 0, fechaEmision := some 50 },
    { doctoCcId := some 3, doctoCcAcrId := some 1, tipoImpte := "R",
      importe := some 30, impuesto := some 0, fechaEmision := some 10 } ]

/-- Witness for C10: the windows `[0, 20]` and `[0, 60]` contain the
same payments but different charges, and the CEI agrees (and equals 10). -/
theorem cei_cancela_cargos_periodo_witness :
    Kpis.cobrosPeriodo filasC10 0 20 = Kpis.cobrosPeriodo filasC10 0 60
    ∧ (Kpis.cobrableCei filasC10 0 20
        = Kpis.saldoActualCei filasC10 + Kpis.cobrosPeriodo filasC10 0 20
      ∧ Kpis.calcularCei filasC10 0 20 = Kpis.calcularCei filasC10 0 60)
    ∧ Kpis.calcularCei filasC10 0 20 = 10
    ∧ Kpis.cargosPeriodo filasC10 0 20 ≠ Kpis.cargosPeriodo filasC10 0 60 := by
  have hcobros : Kpis.cobrosPeriodo filasC10 0 20 = Kpis.cobrosPeriodo filasC10 0 60 := by
    simp +decide [filasC10, Kpis.cobrosPeriodo, Kpis.enPeriodo, monto, List.filter_cons]
  refine ⟨hcobros, cei_cancela_cargos_periodo filasC10 0 20 0 60 hcobros, ?_, ?_⟩
  · have h10 : roundN 1 (10:ℚ) = 10 := by
      unfold roundN
      rw [show (10:ℚ) * 10 ^ 1 = ((100:ℤ) : ℚ) by norm_num, redondeaMitadPar_intCast]
      norm_num
    simp +decide [filasC10, Kpis.calcularCei, Kpis.cobrableCei, Kpis.saldoInicioCei,
      Kpis.saldoActualCei, Kpis.cargosPeriodo, Kpis.cobrosPeriodo, Kpis.enPeriodo,
      monto, List.filter_cons]
    norm_num [h10]
  · simp +decide [filasC10, Kpis.cargosPeriodo, Kpis.enPeriodo, monto, List.filter_cons]

-- ====================================================================
-- OUTLIER DETECTOR
-- ====================================================================

/-- Arithmetic mean of a series (pandas `Series.mean()` over the
non-missing values; the callers only use it on non-empty series). -/
def media (xs : List ℚ) : ℚ := xs.sum / xs.length

/-- Sample variance with `ddof = 1` — the square of pandas
`Series.std()`.  The call sites gate on length at least 3, where this is
well defined and nonnegative. -/
def varMuestral (xs : List ℚ) : ℚ :=
  ((xs.map fun x => (x - media xs) ^ 2).sum) / ((xs.length : ℚ) - 1)

/-- Population variance (`ddof = 0`), the square of the population
standard deviation named by the specification. -/
def varPoblacional (xs : List ℚ) : ℚ :=
  ((xs.map fun x => (x - media xs) ^ 2).sum) / (xs.length : ℚ)

theorem varMuestral_nonneg {xs : List ℚ} (h : 2 ≤ xs.length) :
    0 ≤ varMuestral xs := by
  unfold varMuestral
  apply div_nonneg
  · apply List.sum_nonneg
    intro x hx
    obtain ⟨a, _, rfl⟩ := List.mem_map.mp hx
    positivity
  · have : (2:ℚ) ≤ (xs.length : ℚ) := by exact_mod_cast h
    linarith

namespace ReporteCxc

/-- Series analysed by the IMPORTE z-score block of
`_agregar_zscores`: the non-missing `IMPORTE` values of the charge rows
(`TIPO_IMPTE = 'C'`) — note: the principal alone, without IMPUESTO. -/
def serieImportes (filas : List Fila) : List ℚ :=
  (filas.filter fun r => decide (r.tipoImpte = "C")).filterMap fun r => r.importe

/-- Series analysed by the DELTA_RECAUDO z-score block: all non-missing
`DELTA_RECAUDO` values. -/
def serieDeltaRecaudo (filas : List Fila) : List ℚ :=
  filas.filterMap fun r => r.deltaRecaudo

/-- Series analysed by the DELTA_MORA z-score block: all non-missing
`DELTA_MORA` values. -/
def serieDeltaMora (filas : List Fila) : List ℚ :=
  filas.filterMap fun r => r.deltaMora

/-- IMPORTE block of `_agregar_zscores`: initialise `ZSCORE_IMPORTE` to
NaN and `ATIPICO_IMPORTE` to None; when the charge-importe series has at
least 3 values and positive variance, each charge row receives its
squared z-score and the flag `z >= umbral` (a missing IMPORTE yields a
NaN z-score whose comparison is False).  The display rounding
`round(4)` of the stored z-score is not modelled. -/
def bloqueZscoreImporte (filas : List Fila) (umbral : ℚ) : List Fila :=
  let importes := serieImportes filas
  filas.map fun r0 =>
    let r := { r0 with zsqImporte := none, atipicoImporte := none }
    if 3 ≤ importes.length ∧ 0 < varMuestral importes then
      if r.tipoImpte = "C" then
        match r.importe with
        | some x =>
            { r with
              zsqImporte := (some ((x - media importes) ^ 2 / varMuestral importes))
              atipicoImporte := (some (decide
                (umbral ^ 2 * varMuestral importes ≤ (x - media importes) ^ 2))) }
        | none => { r with atipicoImporte := some false }
      else r
    else r

/-- DELTA_RECAUDO block of `_agregar_zscores`: same shape, over the
non-missing `DELTA_RECAUDO` values, with no row-kind mask. -/
def bloqueZscoreDeltaRecaudo (filas : List Fila) (umbral : ℚ) : List Fila :=
  let vals := serieDeltaRecaudo filas
  filas.map fun r0 =>
    let r := { r0 with zsqDeltaRecaudo := none, atipicoDeltaRecaudo := none }
    if 3 ≤ vals.length ∧ 0 < varMuestral vals then
      match r.deltaRecaudo with
      | some x =>
          { r with
            zsqDeltaRecaudo := (some ((x - media vals) ^ 2 / varMuestral vals))
            atipicoDeltaRecaudo := (some (decide
              (umbral ^ 2 * varMuestral vals ≤ (x - media vals) ^ 2))) }
      | none => r
    else r

/-- DELTA_MORA block of `_agregar_zscores`. -/
def bloqueZscoreDeltaMora (filas : List Fila) (umbral : ℚ) : List Fila :=
  let vals := serieDeltaMora filas
  filas.map fun r0 =>
    let r := { r0 with zsqDeltaMora := none, atipicoDeltaMora := none }
    if 3 ≤ vals.length ∧ 0 < varMuestral vals then
      match r.deltaMora with
      | some x =>
          { r with
            zsqDeltaMora := (some ((x - media vals) ^ 2 / varMuestral vals))
            atipicoDeltaMora := (some (decide
              (umbral ^ 2 * varMuestral vals ≤ (x - media vals) ^ 2))) }
      | none => r
    else r

/-- Embedding of `reporte_cxc._agregar_zscores`: the three z-score
blocks applied in source order.  The column re-ordering performed by the
source function is presentational and not modelled. -/
def agregarZscores (t : Tabla) (umbral : ℚ) : Tabla :=
  { t with filas := (bloqueZscoreDeltaMora
      (bloqueZscoreDeltaRecaudo (bloqueZscoreImporte t.filas umbral) umbral)
      umbral) }

end ReporteCxc

namespace Auditor

/-- Embedding of `Auditor._detectar_importes_atipicos`: z-score over the
non-missing `IMPORTE` values of the charge rows of the (unfiltered,
auditor-prepared) table; empty when there are no charges, fewer than 3
values, or zero variance; otherwise returns the charge rows whose
squared z-score is at least `umbral ^ 2`, each carrying its stored
squared z-score.  The textual MOTIVO column is not modelled. -/
def detectarImportesAtipicos (filas : List Fila) (umbral : ℚ) : List Fila :=
  let ventas := filas.filter fun r => decide (r.tipoImpte = "C")
  if ventas.isEmpty then []
  else
    let importes := ventas.filterMap fun r => r.importe
    if importes.length < 3 ∨ varMuestral importes = 0 then []
    else
      let conZ := ventas.map fun r =>
        match r.importe with
        | some x =>
            { r with zsqImporte := (some
                ((x - media importes) ^ 2 / varMuestral importes)) }
        | none => { r with zsqImporte := none }
      conZ.filter fun r =>
        match r.zsqImporte with
        | some z => decide (umbral ^ 2 ≤ z)
        | none => false

/-- Embedding of `Auditor._detectar_atipicos_delta`: generic over the
analysed delta column (the source indexes columns by the string
`columna` and writes to `ZSCORE_{columna}`, modelled by the `get` /
`setZ` / `getZ` accessors).  Restricted to charge rows; empty when the
non-missing values number fewer than 3 or have zero variance. -/
def detectarAtipicosDelta (filas : List Fila) (get : Fila → Option ℚ)
    (setZ : Fila → Option ℚ → Fila) (getZ : Fila → Option ℚ)
    (umbral : ℚ) : List Fila :=
  let cargos := filas.filter fun r => decide (r.tipoImpte = "C")
  let valores := cargos.filterMap get
  if valores.length < 3 ∨ varMuestral valores = 0 then []
  else
    let conZ := cargos.map fun r =>
      match get r with
      | some x => setZ r (some ((x - media valores) ^ 2 / varMuestral valores))
      | none => setZ r none
    conZ.filter fun r =>
      match getZ r with
      | some z => decide (umbral ^ 2 ≤ z)
      | none => false

/-- `_detectar_atipicos_delta` instantiated at `DELTA_RECAUDO`. -/
def recaudosAtipicos (filas : List Fila) (umbral : ℚ) : List Fila :=
  detectarAtipicosDelta filas (fun r => r.deltaRecaudo)
    (fun r v => { r with zsqDeltaRecaudo := v }) (fun r => r.zsqDeltaRecaudo) umbral

/-- `_detectar_atipicos_delta` instantiated at `DELTA_MORA`. -/
def morasAtipicas (filas : List Fila) (umbral : ℚ) : List Fila :=
  detectarAtipicosDelta filas (fun r => r.deltaMora)
    (fun r v => { r with zsqDeltaMora := v }) (fun r => r.zsqDeltaMora) umbral

end Auditor

namespace Auditor

/-- Non-missing values of a delta column over the charge rows — the
series analysed by `_detectar_atipicos_delta`. -/
def serieDeltaCargos (filas : List Fila) (get : Fila → Option ℚ) : List ℚ :=
  (filas.filter fun r => decide (r.tipoImpte = "C")).filterMap get

end Auditor

theorem serieDeltaRecaudo_bloqueImporte (filas : List Fila) (u : ℚ) :
    ReporteCxc.serieDeltaRecaudo (ReporteCxc.bloqueZscoreImporte filas u)
      = ReporteCxc.serieDeltaRecaudo filas := by
  unfold ReporteCxc.serieDeltaRecaudo ReporteCxc.bloqueZscoreImporte
  rw [List.filterMap_map]
  congr 1
  funext r0
  by_cases hg : (3 ≤ (ReporteCxc.serieImportes filas).length ∧
      0 < varMuestral (ReporteCxc.serieImportes filas) : Prop)
  · by_cases hc : r0.tipoImpte = "C"
    · cases him : r0.importe <;> simp [hg, hc, him, Function.comp]
    · simp [hg, hc, Function.comp]
  · simp [hg, Function.comp]

theorem serieDeltaMora_bloqueImporte (filas : List Fila) (u : ℚ) :
    ReporteCxc.serieDeltaMora (ReporteCxc.bloqueZscoreImporte filas u)
      = ReporteCxc.serieDeltaMora filas := by
  unfold ReporteCxc.serieDeltaMora ReporteCxc.bloqueZscoreImporte
  rw [List.filterMap_map]
  congr 1
  funext r0
  by_cases hg : (3 ≤ (ReporteCxc.serieImportes filas).length ∧
      0 < varMuestral (ReporteCxc.serieImportes filas) : Prop)
  · by_cases hc : r0.tipoImpte = "C"
    · cases him : r0.importe <;> simp [hg, hc, him, Function.comp]
    · simp [hg, hc, Function.comp]
  · simp [hg, Function.comp]

theorem serieDeltaMora_bloqueRecaudo (filas : List Fila) (u : ℚ) :
    ReporteCxc.serieDeltaMora (ReporteCxc.bloqueZscoreDeltaRecaudo filas u)
      = ReporteCxc.serieDeltaMora filas := by
  unfold ReporteCxc.serieDeltaMora ReporteCxc.bloqueZscoreDeltaRecaudo
  rw [List.filterMap_map]
  congr 1
  funext r0
  by_cases hg : (3 ≤ (ReporteCxc.serieDeltaRecaudo filas).length ∧
      0 < varMuestral (ReporteCxc.serieDeltaRecaudo filas) : Prop)
  · cases hd : r0.deltaRecaudo <;> simp [hg, hd, Function.comp]
  · simp [hg, Function.comp]

theorem map_zsqImporte_bloqueRecaudo (l : List Fila) (u : ℚ) :
    (ReporteCxc.bloqueZscoreDeltaRecaudo l u).map (fun r => r.zsqImporte)
      = l.map fun r => r.zsqImporte := by
  unfold ReporteCxc.bloqueZscoreDeltaRecaudo
  rw [List.map_map]
  congr 1
  funext r0
  by_cases hg : (3 ≤ (ReporteCxc.serieDeltaRecaudo l).length ∧
      0 < varMuestral (ReporteCxc.serieDeltaRecaudo l) : Prop)
  · cases hd : r0.deltaRecaudo <;> simp [hg, hd, Function.comp]
  · simp [hg, Function.comp]

theorem map_atipicoImporte_bloqueRecaudo (l : List Fila) (u : ℚ) :
    (ReporteCxc.bloqueZscoreDeltaRecaudo l u).map (fun r => r.atipicoImporte)
      = l.map fun r => r.atipicoImporte := by
  unfold ReporteCxc.bloqueZscoreDeltaRecaudo
  rw [List.map_map]
  congr 1
  funext r0
  by_cases hg : (3 ≤ (ReporteCxc.serieDeltaRecaudo l).length ∧
      0 < varMuestral (ReporteCxc.serieDeltaRecaudo l) : Prop)
  · cases hd : r0.deltaRecaudo <;> simp [hg, hd, Function.comp]
  · simp [hg, Function.comp]

theorem map_importe_bloqueRecaudo (l : List Fila) (u : ℚ) :
    (ReporteCxc.bloqueZscoreDeltaRecaudo l u).map (fun r => r.importe)
      = l.map fun r => r.importe := by
  unfold ReporteCxc.bloqueZscoreDeltaRecaudo
  rw [List.map_map]
  congr 1
  funext r0
  by_cases hg : (3 ≤ (ReporteCxc.serieDeltaRecaudo l).length ∧
      0 < varMuestral (ReporteCxc.serieDeltaRecaudo l) : Prop)
  · cases hd : r0.deltaRecaudo <;> simp [hg, hd, Function.comp]
  · simp [hg, Function.comp]

theorem map_zsqImporte_bloqueMora (l : List Fila) (u : ℚ) :
    (ReporteCxc.bloqueZscoreDeltaMora l u).map (fun r => r.zsqImporte)
      = l.map fun r => r.zsqImporte := by
  unfold ReporteCxc.bloqueZscoreDeltaMora
  rw [List.map_map]
  congr 1
  funext r0
  by_cases hg : (3 ≤ (ReporteCxc.serieDeltaMora l).length ∧
      0 < varMuestral (ReporteCxc.serieDeltaMora l) : Prop)
  · cases hd : r0.deltaMora <;> simp [hg, hd, Function.comp]
  · simp [hg, Function.comp]

theorem map_atipicoImporte_bloqueMora (l : List Fila) (u : ℚ) :
    (ReporteCxc.bloqueZscoreDeltaMora l u).map (fun r => r.atipicoImporte)
      = l.map fun r => r.atipicoImporte := by
  unfold ReporteCxc.bloqueZscoreDeltaMora
  rw [List.map_map]
  congr 1
  funext r0
  by_cases hg : (3 ≤ (ReporteCxc.serieDeltaMora l).length ∧
      0 < varMuestral (ReporteCxc.serieDeltaMora l) : Prop)
  · cases hd : r0.deltaMora <;> simp [hg, hd, Function.comp]
  · simp [hg, Function.comp]

theorem map_importe_bloqueMora (l : List Fila) (u : ℚ) :
    (ReporteCxc.bloqueZscoreDeltaMora l u).map (fun r => r.importe)
      = l.map fun r => r.importe := by
  unfold ReporteCxc.bloqueZscoreDeltaMora
  rw [List.map_map]
  congr 1
  funext r0
  by_cases hg : (3 ≤ (ReporteCxc.serieDeltaMora l).length ∧
      0 < varMuestral (ReporteCxc.serieDeltaMora l) : Prop)
  · cases hd : r0.deltaMora <;> simp [hg, hd, Function.comp]
  · simp [hg, Function.comp]

theorem map_zsqRecaudo_bloqueMora (l : List Fila) (u : ℚ) :
    (ReporteCxc.bloqueZscoreDeltaMora l u).map (fun r => r.zsqDeltaRecaudo)
      = l.map fun r => r.zsqDeltaRecaudo := by
  unfold ReporteCxc.bloqueZscoreDeltaMora
  rw [List.map_map]
  congr 1
  funext r0
  by_cases hg : (3 ≤ (ReporteCxc.serieDeltaMora l).length ∧
      0 < varMuestral (ReporteCxc.serieDeltaMora l) : Prop)
  · cases hd : r0.deltaMora <;> simp [hg, hd, Function.comp]
  · simp [hg, Function.comp]

theorem map_atipicoRecaudo_bloqueMora (l : List Fila) (u : ℚ) :
    (ReporteCxc.bloqueZscoreDeltaMora l u).map (fun r => r.atipicoDeltaRecaudo)
      = l.map fun r => r.atipicoDeltaRecaudo := by
  unfold ReporteCxc.bloqueZscoreDeltaMora
  rw [List.map_map]
  congr 1
  funext r0
  by_cases hg : (3 ≤ (ReporteCxc.serieDeltaMora l).length ∧
      0 < varMuestral (ReporteCxc.serieDeltaMora l) : Prop)
  · cases hd : r0.deltaMora <;> simp [hg, hd, Function.comp]
  · simp [hg, Function.comp]

theorem map_deltaRecaudo_bloqueMora (l : List Fila) (u : ℚ) :
    (ReporteCxc.bloqueZscoreDeltaMora l u).map (fun r => r.deltaRecaudo)
      = l.map fun r => r.deltaRecaudo := by
  unfold ReporteCxc.bloqueZscoreDeltaMora
  rw [List.map_map]
  congr 1
  funext r0
  by_cases hg : (3 ≤ (ReporteCxc.serieDeltaMora l).length ∧
      0 < varMuestral (ReporteCxc.serieDeltaMora l) : Prop)
  · cases hd : r0.deltaMora <;> simp [hg, hd, Function.comp]
  · simp [hg, Function.comp]

/-- C9: whenever a detector input series has fewer than 3 non-missing
values or zero variance (equivalently zero standard deviation), the
corresponding outlier output is empty, for every threshold: in
`_agregar_zscores` every row keeps a null z-score and a null flag for
that block, and both auditor detectors return an empty table.  No error
path exists: the functions are total. -/
theorem detector_degenerado_sin_atipicos (t : Tabla) (filas : List Fila)
    (get : Fila → Option ℚ) (setZ : Fila → Option ℚ → Fila)
    (getZ : Fila → Option ℚ) (u : ℚ) :
    ((ReporteCxc.serieImportes t.filas).length < 3 ∨
        varMuestral (ReporteCxc.serieImportes t.filas) = 0 →
      ((ReporteCxc.agregarZscores t u).filas.map fun r => r.zsqImporte)
          = t.filas.map (fun _ => none)
        ∧ ((ReporteCxc.agregarZscores t u).filas.map fun r => r.atipicoImporte)
          = t.filas.map (fun _ => none))
    ∧ ((ReporteCxc.serieDeltaRecaudo t.filas).length < 3 ∨
        varMuestral (ReporteCxc.serieDeltaRecaudo t.filas) = 0 →
      ((ReporteCxc.agregarZscores t u).filas.map fun r => r.zsqDeltaRecaudo)
          = t.filas.map (fun _ => none)
        ∧ ((ReporteCxc.agregarZscores t u).filas.map fun r => r.atipicoDeltaRecaudo)
          = t.filas.map (fun _ => none))
    ∧ ((ReporteCxc.serieDeltaMora t.filas).length < 3 ∨
        varMuestral (ReporteCxc.serieDeltaMora t.filas) = 0 →
      ((ReporteCxc.agregarZscores t u).filas.map fun r => r.zsqDeltaMora)
          = t.filas.map (fun _ => none)
        ∧ ((ReporteCxc.agregarZscores t u).filas.map fun r => r.atipicoDeltaMora)
          = t.filas.map (fun _ => none))
    ∧ ((ReporteCxc.serieImportes filas).length < 3 ∨
        varMuestral (ReporteCxc.serieImportes filas) = 0 →
      Auditor.detectarImportesAtipicos filas u = [])
    ∧ ((Auditor.serieDeltaCargos filas get).length < 3 ∨
        varMuestral (Auditor.serieDeltaCargos filas get) = 0 →
      Auditor.detectarAtipicosDelta filas get setZ getZ u = []) := by
  refine ⟨?_, ?_, ?_, ?_, ?_⟩
  · intro h
    have hgate : ¬ (3 ≤ (ReporteCxc.serieImportes t.filas).length ∧
        0 < varMuestral (ReporteCxc.serieImportes t.filas)) := by
      rintro ⟨h3, hv⟩
      rcases h with h | h
      · omega
      · rw [h] at hv
        exact lt_irrefl 0 hv
    constructor
    · show ((ReporteCxc.bloqueZscoreDeltaMora
        (ReporteCxc.bloqueZscoreDeltaRecaudo
          (ReporteCxc.bloqueZscoreImporte t.filas u) u) u).map
            fun r => r.zsqImporte) = _
      rw [map_zsqImporte_bloqueMora, map_zsqImporte_bloqueRecaudo]
      unfold ReporteCxc.bloqueZscoreImporte
      rw [List.map_map]
      congr 1
      funext a
      simp [hgate, Function.comp]
    · show ((ReporteCxc.bloqueZscoreDeltaMora
        (ReporteCxc.bloqueZscoreDeltaRecaudo
          (ReporteCxc.bloqueZscoreImporte t.filas u) u) u).map
            fun r => r.atipicoImporte) = _
      rw [map_atipicoImporte_bloqueMora, map_atipicoImporte_bloqueRecaudo]
      unfold ReporteCxc.bloqueZscoreImporte
      rw [List.map_map]
      congr 1
      funext a
      simp [hgate, Function.comp]
  · intro h
    have hgate : ¬ (3 ≤ (ReporteCxc.serieDeltaRecaudo
        (ReporteCxc.bloqueZscoreImporte t.filas u)).length ∧
        0 < varMuestral (ReporteCxc.serieDeltaRecaudo
          (ReporteCxc.bloqueZscoreImporte t.filas u))) := by
      rw [serieDeltaRecaudo_bloqueImporte]
      rintro ⟨h3, hv⟩
      rcases h with h | h
      · omega
      · rw [h] at hv
        exact lt_irrefl 0 hv
    have hconst : (ReporteCxc.bloqueZscoreImporte t.filas u).map
        (fun _ => (none : Option ℚ)) = t.filas.map fun _ => none := by
      unfold ReporteCxc.bloqueZscoreImporte
      rw [List.map_map]
      rfl
    have hconstB : (ReporteCxc.bloqueZscoreImporte t.filas u).map
        (fun _ => (none : Option Bool)) = t.filas.map fun _ => none := by
      unfold ReporteCxc.bloqueZscoreImporte
      rw [List.map_map]
      rfl
    constructor
    · show ((ReporteCxc.bloqueZscoreDeltaMora
        (ReporteCxc.bloqueZscoreDeltaRecaudo
          (ReporteCxc.bloqueZscoreImporte t.filas u) u) u).map
            fun r => r.zsqDeltaRecaudo) = _
      rw [map_zsqRecaudo_bloqueMora]
      unfold ReporteCxc.bloqueZscoreDeltaRecaudo
      rw [List.map_map]
      rw [show ((fun r : Fila => r.zsqDeltaRecaudo) ∘ _) = fun _ : Fila => (none : Option ℚ)
        from ?_]
      · exact hconst
      · funext a
        simp [hgate, Function.comp]
    · show ((ReporteCxc.bloqueZscoreDeltaMora
        (ReporteCxc.bloqueZscoreDeltaRecaudo
          (ReporteCxc.bloqueZscoreImporte t.filas u) u) u).map
            fun r => r.atipicoDeltaRecaudo) = _
      rw [map_atipicoRecaudo_bloqueMora]
      unfold ReporteCxc.bloqueZscoreDeltaRecaudo
      rw [List.map_map]
      rw [show ((fun r : Fila => r.atipicoDeltaRecaudo) ∘ _) = fun _ : Fila => (none : Option Bool)
        from ?_]
      · exact hconstB
      · funext a
        simp [hgate, Function.comp]
  · intro h
    have hgate : ¬ (3 ≤ (ReporteCxc.serieDeltaMora
        (ReporteCxc.bloqueZscoreDeltaRecaudo
          (ReporteCxc.bloqueZscoreImporte t.filas u) u)).length ∧
        0 < varMuestral (ReporteCxc.serieDeltaMora
          (ReporteCxc.bloqueZscoreDeltaRecaudo
            (ReporteCxc.bloqueZscoreImporte t.filas u) u))) := by
      rw [serieDeltaMora_bloqueRecaudo, serieDeltaMora_bloqueImporte]
      rintro ⟨h3, hv⟩
      rcases h with h | h
      · omega
      · rw [h] at hv
        exact lt_irrefl 0 hv
    have hconst : (ReporteCxc.bloqueZscoreDeltaRecaudo
        (ReporteCxc.bloqueZscoreImporte t.filas u) u).map
        (fun _ => (none : Option ℚ)) = t.filas.map fun _ => none := by
      unfold ReporteCxc.bloqueZscoreDeltaRecaudo ReporteCxc.bloqueZscoreImporte
      rw [List.map_map, List.map_map]
      rfl
    have hconstB : (ReporteCxc.bloqueZscoreDeltaRecaudo
        (ReporteCxc.bloqueZscoreImporte t.filas u) u).map
        (fun _ => (none : Option Bool)) = t.filas.map fun _ => none := by
      unfold ReporteCxc.bloqueZscoreDeltaRecaudo ReporteCxc.bloqueZscoreImporte
      rw [List.map_map, List.map_map]
      rfl
    constructor
    · show ((ReporteCxc.bloqueZscoreDeltaMora
        (ReporteCxc.bloqueZscoreDeltaRecaudo
          (ReporteCxc.bloqueZscoreImporte t.filas u) u) u).map
            fun r => r.zsqDeltaMora) = _
      unfold ReporteCxc.bloqueZscoreDeltaMora
      rw [List.map_map]
      rw [show ((fun r : Fila => r.zsqDeltaMora) ∘ _) = fun _ : Fila => (none : Option ℚ)
        from ?_]
      · exact hconst
      · funext a
        simp [hgate, Function.comp]
    · show ((ReporteCxc.bloqueZscoreDeltaMora
        (ReporteCxc.bloqueZscoreDeltaRecaudo
          (ReporteCxc.bloqueZscoreImporte t.filas u) u) u).map
            fun r => r.atipicoDeltaMora) = _
      unfold ReporteCxc.bloqueZscoreDeltaMora
      rw [List.map_map]
      rw [show ((fun r : Fila => r.atipicoDeltaMora) ∘ _) = fun _ : Fila => (none : Option Bool)
        from ?_]
      · exact hconstB
      · funext a
        simp [hgate, Function.comp]
  · intro h
    unfold Auditor.detectarImportesAtipicos
    unfold ReporteCxc.serieImportes at h
    by_cases he : ((filas.filter fun r =>
        decide (r.tipoImpte = "C")).isEmpty : Prop)
    · simp [he]
    · simp only [he, if_false, Bool.false_eq_true]
      rw [if_pos h]
  · intro h
    unfold Auditor.detectarAtipicosDelta
    unfold Auditor.serieDeltaCargos at h
    rw [if_pos h]

/-- Two charges only: the importe series is shorter than 3. -/
def tablaC9 : Tabla :=
  { filas := [
      { doctoCcId := some 1, tipoImpte := "C", importe := some 5 },
      { doctoCcId := some 2, tipoImpte := "C", importe := some 7 } ] }

/-- Three identical charges: zero variance in IMPORTE and in
DELTA_RECAUDO. -/
def filasC9b : List Fila :=
  [ { doctoCcId := some 1, tipoImpte := "C", importe := some 4,
      deltaRecaudo := some 2 },
    { doctoCcId := some 2, tipoImpte := "C", importe := some 4,
      deltaRecaudo := some 2 },
    { doctoCcId := some 3, tipoImpte := "C", importe := some 4,
      deltaRecaudo := some 2 } ]

/-- Witness for C9: on a 2-charge table the z-score block stays null; on
a zero-variance table both auditor detectors return nothing. -/
theorem detector_degenerado_sin_atipicos_witness :
    (ReporteCxc.serieImportes tablaC9.filas).length < 3
    ∧ ((ReporteCxc.agregarZscores tablaC9 3).filas.map fun r => r.zsqImporte)
        = tablaC9.filas.map (fun _ => none)
    ∧ varMuestral (ReporteCxc.serieImportes filasC9b) = 0
    ∧ Auditor.detectarImportesAtipicos filasC9b 3 = []
    ∧ varMuestral (Auditor.serieDeltaCargos filasC9b fun r => r.deltaRecaudo) = 0
    ∧ Auditor.recaudosAtipicos filasC9b 3 = [] := by
  have hlen : (ReporteCxc.serieImportes tablaC9.filas).length < 3 := by
    simp +decide [tablaC9, ReporteCxc.serieImportes, List.filter_cons]
  have hser : ReporteCxc.serieImportes filasC9b = [4, 4, 4] := by
    simp +decide [filasC9b, ReporteCxc.serieImportes, List.filter_cons]
  have hvar : varMuestral (ReporteCxc.serieImportes filasC9b) = 0 := by
    rw [hser]
    norm_num [varMuestral, media]
  have hserd : Auditor.serieDeltaCargos filasC9b (fun r => r.deltaRecaudo)
      = [2, 2, 2] := by
    simp +decide [filasC9b, Auditor.serieDeltaCargos, List.filter_cons]
  have hvard : varMuestral (Auditor.serieDeltaCargos filasC9b
      fun r => r.deltaRecaudo) = 0 := by
    rw [hserd]
    norm_num [varMuestral, media]
  have H := detector_degenerado_sin_atipicos tablaC9 filasC9b
    (fun r => r.deltaRecaudo) (fun r v => { r with zsqDeltaRecaudo := v })
    (fun r => r.zsqDeltaRecaudo) 3
  refine ⟨hlen, (H.1 (Or.inl hlen)).1, hvar,
    H.2.2.2.1 (Or.inr hvar), hvard, ?_⟩
  unfold Auditor.recaudosAtipicos
  exact H.2.2.2.2 (Or.inr hvard)

theorem map_gDeltaRecaudo_bloqueImporte {β : Type} (g : Option ℚ → β)
    (l : List Fila) (u : ℚ) :
    (ReporteCxc.bloqueZscoreImporte l u).map (fun r => g r.deltaRecaudo)
      = l.map fun r => g r.deltaRecaudo := by
  unfold ReporteCxc.bloqueZscoreImporte
  rw [List.map_map]
  congr 1
  funext r0
  by_cases hg : (3 ≤ (ReporteCxc.serieImportes l).length ∧
      0 < varMuestral (ReporteCxc.serieImportes l) : Prop)
  · by_cases hc : r0.tipoImpte = "C"
    · cases him : r0.importe <;> simp [hg, hc, him, Function.comp]
    · simp [hg, hc, Function.comp]
  · simp [hg, Function.comp]

theorem map_gDeltaMora_bloqueImporte {β : Type} (g : Option ℚ → β)
    (l : List Fila) (u : ℚ) :
    (ReporteCxc.bloqueZscoreImporte l u).map (fun r => g r.deltaMora)
      = l.map fun r => g r.deltaMora := by
  unfold ReporteCxc.bloqueZscoreImporte
  rw [List.map_map]
  congr 1
  funext r0
  by_cases hg : (3 ≤ (ReporteCxc.serieImportes l).length ∧
      0 < varMuestral (ReporteCxc.serieImportes l) : Prop)
  · by_cases hc : r0.tipoImpte = "C"
    · cases him : r0.importe <;> simp [hg, hc, him, Function.comp]
    · simp [hg, hc, Function.comp]
  · simp [hg, Function.comp]

theorem map_gDeltaMora_bloqueRecaudo {β : Type} (g : Option ℚ → β)
    (l : List Fila) (u : ℚ) :
    (ReporteCxc.bloqueZscoreDeltaRecaudo l u).map (fun r => g r.deltaMora)
      = l.map fun r => g r.deltaMora := by
  unfold ReporteCxc.bloqueZscoreDeltaRecaudo
  rw [List.map_map]
  congr 1
  funext r0
  by_cases hg : (3 ≤ (ReporteCxc.serieDeltaRecaudo l).length ∧
      0 < varMuestral (ReporteCxc.serieDeltaRecaudo l) : Prop)
  · cases hd : r0.deltaRecaudo <;> simp [hg, hd, Function.comp]
  · simp [hg, Function.comp]

theorem map_zsqRecaudo_bloqueRecaudo (l : List Fila) (u : ℚ) :
    (ReporteCxc.bloqueZscoreDeltaRecaudo l u).map (fun r => r.zsqDeltaRecaudo)
      = l.map fun a =>
          if 3 ≤ (ReporteCxc.serieDeltaRecaudo l).length ∧
              0 < varMuestral (ReporteCxc.serieDeltaRecaudo l) then
            a.deltaRecaudo.map fun x =>
              (x - media (ReporteCxc.serieDeltaRecaudo l)) ^ 2
                / varMuestral (ReporteCxc.serieDeltaRecaudo l)
          else none := by
  unfold ReporteCxc.bloqueZscoreDeltaRecaudo
  rw [List.map_map]
  congr 1
  funext r0
  by_cases hg : (3 ≤ (ReporteCxc.serieDeltaRecaudo l).length ∧
      0 < varMuestral (ReporteCxc.serieDeltaRecaudo l) : Prop)
  · cases hd : r0.deltaRecaudo <;> simp [hg, hd, Function.comp]
  · simp [hg, Function.comp]

theorem map_zsqMora_bloqueMora (l : List Fila) (u : ℚ) :
    (ReporteCxc.bloqueZscoreDeltaMora l u).map (fun r => r.zsqDeltaMora)
      = l.map fun a =>
          if 3 ≤ (ReporteCxc.serieDeltaMora l).length ∧
              0 < varMuestral (ReporteCxc.serieDeltaMora l) then
            a.deltaMora.map fun x =>
              (x - media (ReporteCxc.serieDeltaMora l)) ^ 2
                / varMuestral (ReporteCxc.serieDeltaMora l)
          else none := by
  unfold ReporteCxc.bloqueZscoreDeltaMora
  rw [List.map_map]
  congr 1
  funext r0
  by_cases hg : (3 ≤ (ReporteCxc.serieDeltaMora l).length ∧
      0 < varMuestral (ReporteCxc.serieDeltaMora l) : Prop)
  · cases hd : r0.deltaMora <;> simp [hg, hd, Function.comp]
  · simp [hg, Function.comp]

theorem map_zsqImporte_agregar (t : Tabla) (u : ℚ) :
    ((ReporteCxc.agregarZscores t u).filas.map fun r => r.zsqImporte)
      = t.filas.map fun a =>
          if 3 ≤ (ReporteCxc.serieImportes t.filas).length ∧
              0 < varMuestral (ReporteCxc.serieImportes t.filas) then
            if a.tipoImpte = "C" then
              a.importe.map fun x =>
                (x - media (ReporteCxc.serieImportes t.filas)) ^ 2
                  / varMuestral (ReporteCxc.serieImportes t.filas)
            else none
          else none := by
  show ((ReporteCxc.bloqueZscoreDeltaMora
    (ReporteCxc.bloqueZscoreDeltaRecaudo
      (ReporteCxc.bloqueZscoreImporte t.filas u) u) u).map
        fun r => r.zsqImporte) = _
  rw [map_zsqImporte_bloqueMora, map_zsqImporte_bloqueRecaudo]
  unfold ReporteCxc.bloqueZscoreImporte
  rw [List.map_map]
  congr 1
  funext a
  by_cases hg : (3 ≤ (ReporteCxc.serieImportes t.filas).length ∧
      0 < varMuestral (ReporteCxc.serieImportes t.filas) : Prop)
  · by_cases hc : a.tipoImpte = "C"
    · cases him : a.importe <;> simp [hg, hc, him, Function.comp]
    · simp [hg, hc, Function.comp]
  · simp [hg, Function.comp]

/-- C3 (amended): every z-score stored by the outlier detector — over
charge IMPORTE values in `_agregar_zscores` and in
`_detectar_importes_atipicos`, and over the two delta series in
`_agregar_zscores` and `_detectar_atipicos_delta` — equals
`|value - mean| / s` where `s` is the SAMPLE standard deviation
(`ddof = 1`, the pandas `Series.std()` default) of the non-missing
values of that series, not the population standard deviation; stated at
the squared level: each stored squared z-score is
`(value - mean)^2 / varMuestral`. -/
theorem zscores_usan_varianza_muestral (t : Tabla) (filas : List Fila) (u : ℚ) :
    ((ReporteCxc.agregarZscores t u).filas.map fun r => r.zsqImporte)
      = (t.filas.map fun a =>
          if 3 ≤ (ReporteCxc.serieImportes t.filas).length ∧
              0 < varMuestral (ReporteCxc.serieImportes t.filas) then
            if a.tipoImpte = "C" then
              a.importe.map fun x =>
                (x - media (ReporteCxc.serieImportes t.filas)) ^ 2
                  / varMuestral (ReporteCxc.serieImportes t.filas)
            else none
          else none)
    ∧ ((ReporteCxc.agregarZscores t u).filas.map fun r => r.zsqDeltaRecaudo)
      = (t.filas.map fun a =>
          if 3 ≤ (ReporteCxc.serieDeltaRecaudo t.filas).length ∧
              0 < varMuestral (ReporteCxc.serieDeltaRecaudo t.filas) then
            a.deltaRecaudo.map fun x =>
              (x - media (ReporteCxc.serieDeltaRecaudo t.filas)) ^ 2
                / varMuestral (ReporteCxc.serieDeltaRecaudo t.filas)
          else none)
    ∧ ((ReporteCxc.agregarZscores t u).filas.map fun r => r.zsqDeltaMora)
      = (t.filas.map fun a =>
          if 3 ≤ (ReporteCxc.serieDeltaMora t.filas).length ∧
              0 < varMuestral (ReporteCxc.serieDeltaMora t.filas) then
            a.deltaMora.map fun x =>
              (x - media (ReporteCxc.serieDeltaMora t.filas)) ^ 2
                / varMuestral (ReporteCxc.serieDeltaMora t.filas)
          else none)
    ∧ ((Auditor.detectarImportesAtipicos filas u).map fun r => r.zsqImporte)
      = ((Auditor.detectarImportesAtipicos filas u).map fun r =>
          r.importe.map fun x =>
            (x - media (ReporteCxc.serieImportes filas)) ^ 2
              / varMuestral (ReporteCxc.serieImportes filas))
    ∧ ((Auditor.recaudosAtipicos filas u).map fun r => r.zsqDeltaRecaudo)
      = ((Auditor.recaudosAtipicos filas u).map fun r =>
          r.deltaRecaudo.map fun x =>
            (x - media (Auditor.serieDeltaCargos filas fun a => a.deltaRecaudo)) ^ 2
              / varMuestral (Auditor.serieDeltaCargos filas fun a => a.deltaRecaudo))
    ∧ ((Auditor.morasAtipicas filas u).map fun r => r.zsqDeltaMora)
      = ((Auditor.morasAtipicas filas u).map fun r =>
          r.deltaMora.map fun x =>
            (x - media (Auditor.serieDeltaCargos filas fun a => a.deltaMora)) ^ 2
              / varMuestral (Auditor.serieDeltaCargos filas fun a => a.deltaMora)) := by
  refine ⟨map_zsqImporte_agregar t u, ?_, ?_, ?_, ?_, ?_⟩
  · show ((ReporteCxc.bloqueZscoreDeltaMora
      (ReporteCxc.bloqueZscoreDeltaRecaudo
        (ReporteCxc.bloqueZscoreImporte t.filas u) u) u).map
          fun r => r.zsqDeltaRecaudo) = _
    rw [map_zsqRecaudo_bloqueMora, map_zsqRecaudo_bloqueRecaudo,
      serieDeltaRecaudo_bloqueImporte]
    exact map_gDeltaRecaudo_bloqueImporte
      (fun d => if 3 ≤ (ReporteCxc.serieDeltaRecaudo t.filas).length ∧
          0 < varMuestral (ReporteCxc.serieDeltaRecaudo t.filas) then
        d.map fun x =>
          (x - media (ReporteCxc.serieDeltaRecaudo t.filas)) ^ 2
            / varMuestral (ReporteCxc.serieDeltaRecaudo t.filas)
      else none) t.filas u
  · show ((ReporteCxc.bloqueZscoreDeltaMora
      (ReporteCxc.bloqueZscoreDeltaRecaudo
        (ReporteCxc.bloqueZscoreImporte t.filas u) u) u).map
          fun r => r.zsqDeltaMora) = _
    rw [map_zsqMora_bloqueMora, serieDeltaMora_bloqueRecaudo,
      serieDeltaMora_bloqueImporte]
    rw [map_gDeltaMora_bloqueRecaudo
      (fun d => if 3 ≤ (ReporteCxc.serieDeltaMora t.filas).length ∧
          0 < varMuestral (ReporteCxc.serieDeltaMora t.filas) then
        d.map fun x =>
          (x - media (ReporteCxc.serieDeltaMora t.filas)) ^ 2
            / varMuestral (ReporteCxc.serieDeltaMora t.filas)
      else none)]
    exact map_gDeltaMora_bloqueImporte
      (fun d => if 3 ≤ (ReporteCxc.serieDeltaMora t.filas).length ∧
          0 < varMuestral (ReporteCxc.serieDeltaMora t.filas) then
        d.map fun x =>
          (x - media (ReporteCxc.serieDeltaMora t.filas)) ^ 2
            / varMuestral (ReporteCxc.serieDeltaMora t.filas)
      else none) t.filas u
  · unfold Auditor.detectarImportesAtipicos
    by_cases he : (((filas.filter fun r =>
        decide (r.tipoImpte = "C")).isEmpty : Bool) = true)
    · simp [he]
    · simp only [he, if_false, Bool.false_eq_true]
      by_cases hgate : ((filas.filter fun r =>
          decide (r.tipoImpte = "C")).filterMap fun r => r.importe).length < 3 ∨
          varMuestral ((filas.filter fun r =>
            decide (r.tipoImpte = "C")).filterMap fun r => r.importe) = 0
      · rw [if_pos hgate]
        simp
      · rw [if_neg hgate]
        apply List.map_congr_left
        intro r hr
        have hr2 := List.mem_filter.mp hr
        obtain ⟨a, _, req⟩ := List.mem_map.mp hr2.1
        cases him : a.importe with
        | some x =>
            simp only [him] at req
            subst req
            simp [ReporteCxc.serieImportes, him]
        | none =>
            simp only [him] at req
            subst req
            have := hr2.2
            simp at this
  · unfold Auditor.recaudosAtipicos Auditor.detectarAtipicosDelta
    by_cases hgate : ((filas.filter fun r =>
        decide (r.tipoImpte = "C")).filterMap fun r => r.deltaRecaudo).length < 3 ∨
        varMuestral ((filas.filter fun r =>
          decide (r.tipoImpte = "C")).filterMap fun r => r.deltaRecaudo) = 0
    · rw [if_pos hgate]
      simp
    · rw [if_neg hgate]
      apply List.map_congr_left
      intro r hr
      have hr2 := List.mem_filter.mp hr
      obtain ⟨a, _, req⟩ := List.mem_map.mp hr2.1
      cases hd : a.deltaRecaudo with
      | some x =>
          simp only [hd] at req
          subst req
          simp [Auditor.serieDeltaCargos, hd]
      | none =>
          simp only [hd] at req
          subst req
          have := hr2.2
          simp at this
  · unfold Auditor.morasAtipicas Auditor.detectarAtipicosDelta
    by_cases hgate : ((filas.filter fun r =>
        decide (r.tipoImpte = "C")).filterMap fun r => r.deltaMora).length < 3 ∨
        varMuestral ((filas.filter fun r =>
          decide (r.tipoImpte = "C")).filterMap fun r => r.deltaMora) = 0
    · rw [if_pos hgate]
      simp
    · rw [if_neg hgate]
      apply List.map_congr_left
      intro r hr
      have hr2 := List.mem_filter.mp hr
      obtain ⟨a, _, req⟩ := List.mem_map.mp hr2.1
      cases hd : a.deltaMora with
      | some x =>
          simp only [hd] at req
          subst req
          simp [Auditor.serieDeltaCargos, hd]
      | none =>
          simp only [hd] at req
          subst req
          have := hr2.2
          simp at this

/-- Three charges with principal amounts 0, 0 and 3. -/
def tablaC3 : Tabla :=
  { filas := [
      { doctoCcId := some 1, tipoImpte := "C", importe := some 0 },
      { doctoCcId := some 2, tipoImpte := "C", importe := some 0 },
      { doctoCcId := some 3, tipoImpte := "C", importe := some 3 } ] }

/-- Counterexample to C3 as stated: on the charge series `[0, 0, 3]` the
detector stores the squared z-score `4/3` for the value 3 (sample
standard deviation, `ddof = 1`), while the population formula of the
claim gives `(3 - 1) ^ 2 / 2 = 2`; as both z-scores are nonnegative
square roots of these squares, the computed z-score is `2/sqrt 3`, not
the claimed `sqrt 2`. -/
theorem zscore_poblacional_contraejemplo :
    ((ReporteCxc.agregarZscores tablaC3 3).filas.map fun r => r.zsqImporte)
      = [some (1/3), some (1/3), some (4/3)]
    ∧ ReporteCxc.serieImportes tablaC3.filas = [0, 0, 3]
    ∧ varMuestral [(0:ℚ), 0, 3] = 3
    ∧ varPoblacional [(0:ℚ), 0, 3] = 2
    ∧ ((3:ℚ) - media [(0:ℚ), 0, 3]) ^ 2 / varPoblacional [(0:ℚ), 0, 3] = 2
    ∧ (4:ℚ)/3 ≠ 2 := by
  have hm : media [(0:ℚ), 0, 3] = 1 := by
    norm_num [media]
  have hv : varMuestral [(0:ℚ), 0, 3] = 3 := by
    norm_num [varMuestral, media]
  refine ⟨?_, ?_, hv, ?_, ?_, by norm_num⟩
  · simp +decide [tablaC3, ReporteCxc.agregarZscores,
      ReporteCxc.bloqueZscoreImporte, ReporteCxc.bloqueZscoreDeltaRecaudo,
      ReporteCxc.bloqueZscoreDeltaMora, ReporteCxc.serieImportes,
      ReporteCxc.serieDeltaRecaudo, ReporteCxc.serieDeltaMora,
      List.filter_cons, hm, hv]
    norm_num
  · simp +decide [tablaC3, ReporteCxc.serieImportes, List.filter_cons]
  · norm_num [varPoblacional, media]
  · norm_num [varPoblacional, media]

-- ====================================================================
-- CLIENT RUNNING BALANCE
-- ====================================================================

/-- Lexicographic Bool comparison of lists of naturals, used to compare
strings byte-wise the way pandas compares object keys. -/
def natListLe : List ℕ → List ℕ → Bool
  | [], _ => true
  | _ :: _, [] => false
  | a :: as, b :: bs => decide (a < b) || (decide (a = b) && natListLe as bs)

/-- String comparison via code points. -/
def strLe (a b : String) : Bool :=
  natListLe (a.data.map Char.toNat) (b.data.map Char.toNat)

/-- Ascending comparison of nullable integer keys with `NaN` first
(`na_position = "first"`). -/
def optIntLe (a b : Option ℤ) : Bool :=
  match a, b with
  | none, _ => true
  | some _, none => false
  | some x, some y => decide (x ≤ y)

namespace ReporteCxc

/-- Signed movement of a row for the running balance: a charge adds
`IMPORTE + IMPUESTO`, a payment subtracts it, anything else is 0. -/
def signo (r : Fila) : ℚ :=
  if r.tipoImpte = "C" then monto r
  else if r.tipoImpte = "R" then -(monto r) else 0

/-- Sort order of `_calcular_saldo_cliente`:
`sort_values(["NOMBRE_CLIENTE", "DOCTO_CC_ACR_ID", "DOCTO_CC_ID",
"FECHA_EMISION"], ascending, na_position="first")`. -/
def ordenMovs (a b : Fila) : Bool :=
  if a.nombreCliente ≠ b.nombreCliente then strLe a.nombreCliente b.nombreCliente
  else if a.doctoCcAcrId ≠ b.doctoCcAcrId then optIntLe a.doctoCcAcrId b.doctoCcAcrId
  else if a.doctoCcId ≠ b.doctoCcId then optIntLe a.doctoCcId b.doctoCcId
  else optIntLe a.fechaEmision b.fechaEmision

/-- The deterministic sort (pandas sorts are stable; so is `mergeSort`). -/
def ordenarMovimientos (fs : List Fila) : List Fila := fs.mergeSort ordenMovs

/-- Per-client cumulative sum in list order, each cumulative value
rounded to 2 decimals — `movimiento.groupby(NOMBRE_CLIENTE).cumsum()
.round(2)`.  `acc` carries each client's running total so far. -/
def cumsumPorCliente : List Fila → (String → ℚ) → List Fila
  | [], _ => []
  | r :: rs, acc =>
      { r with saldoCliente := some (round2 (acc r.nombreCliente + signo r)) } ::
        cumsumPorCliente rs
          (fun c => if c = r.nombreCliente
            then acc r.nombreCliente + signo r else acc c)

/-- Embedding of `_calcular_saldo_cliente`: sort, then per-client
cumulative signed sum. -/
def calcularSaldoCliente (t : Tabla) : Tabla :=
  { t with filas := cumsumPorCliente (ordenarMovimientos t.filas) fun _ => 0 }

/-- The running balance at the client's last row of the sorted table. -/
def ultimoSaldoCliente (t : Tabla) (c : String) : Option ℚ :=
  (((calcularSaldoCliente t).filas.filter
    fun r => decide (r.nombreCliente = c)).getLast?).bind fun r => r.saldoCliente

/-- Sum of the per-invoice outstanding balances of one client, read off
the charge rows of a table whose `SALDO_FACTURA` is computed. -/
def sumaSaldosCliente (fs : List Fila) (c : String) : ℚ :=
  ((fs.filter fun r =>
    decide (r.tipoImpte = "C") && decide (r.nombreCliente = c)).filterMap
      fun r => r.saldoFactura).sum

end ReporteCxc

theorem cumsum_clientes (l : List Fila) (acc : String → ℚ) :
    (ReporteCxc.cumsumPorCliente l acc).map (fun r => r.nombreCliente)
      = l.map fun r => r.nombreCliente := by
  induction l generalizing acc with
  | nil => rfl
  | cons r rs ih =>
      unfold ReporteCxc.cumsumPorCliente
      simp [ih]

theorem cumsum_ultimo (l : List Fila) (acc : String → ℚ) (c : String)
    (hex : ∃ r ∈ l, r.nombreCliente = c) :
    (((ReporteCxc.cumsumPorCliente l acc).filter
        fun r => decide (r.nombreCliente = c)).getLast?).bind (fun r => r.saldoCliente)
      = some (round2 (acc c +
          ((l.filter fun r => decide (r.nombreCliente = c)).map
            ReporteCxc.signo).sum)) := by
  induction l generalizing acc with
  | nil =>
      obtain ⟨r, hr, _⟩ := hex
      exact absurd hr (List.not_mem_nil r)
  | cons r rs ih =>
      unfold ReporteCxc.cumsumPorCliente
      rw [List.filter_cons, List.filter_cons]
      by_cases hc : r.nombreCliente = c
      · rw [if_pos (by simpa using hc), if_pos (by simpa using hc)]
        by_cases hrs : ∃ x ∈ rs, x.nombreCliente = c
        · cases hfe : (ReporteCxc.cumsumPorCliente rs
              (fun d => if d = r.nombreCliente
                then acc r.nombreCliente + ReporteCxc.signo r else acc d)).filter
              (fun x => decide (x.nombreCliente = c)) with
          | nil =>
              exfalso
              obtain ⟨x, hx, hxc⟩ := hrs
              have hmem : x.nombreCliente ∈ (ReporteCxc.cumsumPorCliente rs
                  (fun d => if d = r.nombreCliente
                    then acc r.nombreCliente + ReporteCxc.signo r else acc d)).map
                  (fun y => y.nombreCliente) := by
                rw [cumsum_clientes]
                exact List.mem_map_of_mem _ hx
              obtain ⟨y, hy, hyc⟩ := List.mem_map.mp hmem
              have hymem : y ∈ (ReporteCxc.cumsumPorCliente rs
                  (fun d => if d = r.nombreCliente
                    then acc r.nombreCliente + ReporteCxc.signo r else acc d)).filter
                  (fun x => decide (x.nombreCliente = c)) :=
                List.mem_filter.mpr ⟨hy, by simp [hyc, hxc]⟩
              rw [hfe] at hymem
              exact absurd hymem (List.not_mem_nil y)
          | cons b bl =>
              have step := ih (fun d => if d = r.nombreCliente
                  then acc r.nombreCliente + ReporteCxc.signo r else acc d) hrs
              simp only [] at step
              have hacc : (if c = r.nombreCliente
                  then acc r.nombreCliente + ReporteCxc.signo r else acc c)
                  = acc c + ReporteCxc.signo r := by
                rw [if_pos hc.symm, hc]
              rw [hacc, hfe] at step
              rw [List.getLast?_cons_cons, step, List.map_cons, List.sum_cons]
              congr 2
              ring
        · push_neg at hrs
          have hnil : (ReporteCxc.cumsumPorCliente rs
              (fun d => if d = r.nombreCliente
                then acc r.nombreCliente + ReporteCxc.signo r else acc d)).filter
              (fun x => decide (x.nombreCliente = c)) = [] := by
            apply List.filter_eq_nil_iff.mpr
            intro x hx
            have hmem : x.nombreCliente ∈ (ReporteCxc.cumsumPorCliente rs
                (fun d => if d = r.nombreCliente
                  then acc r.nombreCliente + ReporteCxc.signo r else acc d)).map
                (fun y => y.nombreCliente) := List.mem_map_of_mem _ hx
            rw [cumsum_clientes] at hmem
            obtain ⟨y, hy, hyc⟩ := List.mem_map.mp hmem
            simp only [decide_eq_true_eq]
            intro hxc
            exact hrs y hy (by rw [hyc, hxc])
          have hnil2 : rs.filter (fun x => decide (x.nombreCliente = c)) = [] :=
            List.filter_eq_nil_iff.mpr fun x hx => by
              simp only [decide_eq_true_eq]
              exact hrs x hx
          rw [hnil, hnil2]
          simp [hc]
      · rw [if_neg (by simpa using hc), if_neg (by simpa using hc)]
        have hex2 : ∃ x ∈ rs, x.nombreCliente = c := by
          obtain ⟨x, hx, hxc⟩ := hex
          rcases List.mem_cons.mp hx with rfl | hx2
          · exact absurd hxc hc
          · exact ⟨x, hx2, hxc⟩
        have step := ih (fun d => if d = r.nombreCliente
            then acc r.nombreCliente + ReporteCxc.signo r else acc d) hex2
        simp only [] at step
        have hacc : (if c = r.nombreCliente
            then acc r.nombreCliente + ReporteCxc.signo r else acc c) = acc c := by
          rw [if_neg fun h => hc h.symm]
        rw [hacc] at step
        rw [step]

theorem sum_ite_const {α : Type} (l : List α) (p : α → Bool) (m : ℚ) :
    (l.map fun a => if p a then m else 0).sum
      = ((l.filter p).length : ℚ) * m := by
  induction l with
  | nil => simp
  | cons a l ih =>
      rw [List.map_cons, List.sum_cons, ih, List.filter_cons]
      by_cases h : p a
      · rw [if_pos h, if_pos h, List.length_cons]
        push_cast
        ring
      · rw [if_neg h, if_neg h]
        ring

theorem sum_ite_filter {α : Type} (l : List α) (p : α → Bool) (f : α → ℚ) :
    (l.map fun a => if p a then f a else 0).sum
      = ((l.filter p).map f).sum := by
  induction l with
  | nil => simp
  | cons a l ih =>
      rw [List.map_cons, List.sum_cons, ih, List.filter_cons]
      by_cases h : p a
      · rw [if_pos h, if_pos h, List.map_cons, List.sum_cons]
      · rw [if_neg h, if_neg h]
        ring

theorem length_filter_unique (cs : List Fila)
    (hpair : cs.Pairwise fun a b => a.doctoCcId ≠ b.doctoCcId)
    (q0 : Fila) (hq0 : q0 ∈ cs) (P : Fila → Bool) :
    (cs.filter fun q => P q && decide (q0.doctoCcId = q.doctoCcId)).length
      = if P q0 then 1 else 0 := by
  induction cs with
  | nil => cases hq0
  | cons a cs ih =>
      rw [List.filter_cons]
      rcases List.mem_cons.mp hq0 with rfl | hmem
      · have htail : cs.filter (fun q => P q &&
            decide (q0.doctoCcId = q.doctoCcId)) = [] := by
          apply List.filter_eq_nil_iff.mpr
          intro q hq
          have hne := (List.pairwise_cons.mp hpair).1 q hq
          simp [hne]
        by_cases hp : P q0
        · rw [if_pos (by simp [hp]), List.length_cons, htail]
          simp [hp]
        · rw [if_neg (by simp [hp]), htail]
          simp [hp]
      · have hne := (List.pairwise_cons.mp hpair).1 q0 hmem
        rw [if_neg (by
          simp only [Bool.and_eq_true, decide_eq_true_eq, not_and]
          intro _ h2
          exact hne h2.symm)]
        exact ih (List.pairwise_cons.mp hpair).2 hmem

theorem abonos_eq_filter (fs : List Fila) (q : Fila) (h : q.doctoCcId.isSome) :
    ReporteCxc.abonosVinculados fs q.doctoCcId
      = ((fs.filter fun p => decide (p.tipoImpte = "R") &&
          decide (p.doctoCcAcrId = q.doctoCcId)).map monto).sum := by
  obtain ⟨i, hi⟩ := Option.isSome_iff_exists.mp h
  rw [hi]
  simp only [ReporteCxc.abonosVinculados]
  have hfe : (fs.filter fun p =>
      (p.tipoImpte = "R" ∧ p.doctoCcAcrId = some i : Prop))
      = fs.filter fun p => decide (p.tipoImpte = "R") &&
          decide (p.doctoCcAcrId = some i) := by
    apply List.filter_congr
    intro p _
    simp [Bool.decide_and]
  rw [hfe]

theorem sum_filter_swap (qs ps : List Fila) :
    ((qs.map fun q =>
        ((ps.filter fun p => decide (p.tipoImpte = "R") &&
            decide (p.doctoCcAcrId = q.doctoCcId)).map monto).sum)).sum
      = ((ps.map fun p => if p.tipoImpte = "R" then
          (((qs.filter fun q =>
            decide (p.doctoCcAcrId = q.doctoCcId)).length : ℚ) * monto p)
        else 0)).sum := by
  induction ps with
  | nil => simp
  | cons p ps ih =>
      have hsplit : (qs.map fun q =>
          (((p :: ps).filter fun x => decide (x.tipoImpte = "R") &&
              decide (x.doctoCcAcrId = q.doctoCcId)).map monto).sum)
          = qs.map fun q =>
            (if decide (p.tipoImpte = "R") &&
                decide (p.doctoCcAcrId = q.doctoCcId) then monto p else 0)
              + ((ps.filter fun x => decide (x.tipoImpte = "R") &&
                  decide (x.doctoCcAcrId = q.doctoCcId)).map monto).sum := by
        apply List.map_congr_left
        intro q _
        rw [List.filter_cons]
        by_cases h : (decide (p.tipoImpte = "R") &&
            decide (p.doctoCcAcrId = q.doctoCcId) : Bool)
        · rw [if_pos h, if_pos h, List.map_cons, List.sum_cons]
        · rw [if_neg h, if_neg h]
          ring
      rw [hsplit, List.sum_map_add, ih, List.map_cons, List.sum_cons]
      congr 1
      by_cases hR : p.tipoImpte = "R"
      · have hptw : (qs.map fun q =>
            if decide (p.tipoImpte = "R") &&
                decide (p.doctoCcAcrId = q.doctoCcId) then monto p else 0)
            = qs.map fun q =>
              if decide (p.doctoCcAcrId = q.doctoCcId) then monto p else 0 := by
          apply List.map_congr_left
          intro q _
          simp [hR]
        rw [hptw, sum_ite_const, if_pos hR]
      · have hptw : (qs.map fun q =>
            if decide (p.tipoImpte = "R") &&
                decide (p.doctoCcAcrId = q.doctoCcId) then monto p else 0)
            = qs.map fun _ => (0:ℚ) := by
          apply List.map_congr_left
          intro q _
          simp [hR]
        rw [hptw, if_neg hR]
        simp

theorem sum_signo_split (l : List Fila) :
    (l.map ReporteCxc.signo).sum
      = ((l.filter fun r => decide (r.tipoImpte = "C")).map monto).sum
        - ((l.filter fun r => decide (r.tipoImpte = "R")).map monto).sum := by
  induction l with
  | nil => simp
  | cons r l ih =>
      rw [List.map_cons, List.sum_cons, ih, List.filter_cons, List.filter_cons]
      by_cases hC : r.tipoImpte = "C"
      · rw [if_pos (by simp [hC]), if_neg (by simp [hC]),
          List.map_cons, List.sum_cons]
        unfold ReporteCxc.signo
        rw [if_pos hC]
        ring
      · by_cases hR : r.tipoImpte = "R"
        · rw [if_neg (by simp [hC]), if_pos (by simp [hR]),
            List.map_cons, List.sum_cons]
          unfold ReporteCxc.signo
          rw [if_neg hC, if_pos hR]
          ring
        · rw [if_neg (by simp [hC]), if_neg (by simp [hR])]
          unfold ReporteCxc.signo
          rw [if_neg hC, if_neg hR]
          ring

theorem filterMap_saldo_eq_map (l : List Fila) (g : Fila → ℚ)
    (h : ∀ r ∈ l, r.saldoFactura = some (g r)) :
    l.filterMap (fun r => r.saldoFactura) = l.map g := by
  induction l with
  | nil => rfl
  | cons a l ih =>
      rw [List.filterMap_cons, List.map_cons,
        h a (List.mem_cons_self a l)]
      rw [ih fun r hr => h r (List.mem_cons_of_mem a hr)]

theorem sum_map_sub {α : Type} (l : List α) (f g : α → ℚ) :
    (l.map fun a => f a - g a).sum = (l.map f).sum - (l.map g).sum := by
  induction l with
  | nil => simp
  | cons a l ih =>
      rw [List.map_cons, List.sum_cons, ih, List.map_cons, List.sum_cons,
        List.map_cons, List.sum_cons]
      ring

theorem filter_and_comm {α : Type} (l : List α) (p q : α → Bool) :
    l.filter (fun a => p a && q a) = l.filter fun a => q a && p a :=
  List.filter_congr fun a _ => Bool.and_comm _ _

theorem reconciliacion_nucleo (fs : List Fila) (c : String)
    (hsaldo : ∀ r ∈ fs, r.tipoImpte = "C" → r.saldoFactura
      = some (round2 (monto r - ReporteCxc.abonosVinculados fs r.doctoCcId)))
    (hpair : (fs.filter fun q => decide (q.tipoImpte = "C")).Pairwise
      fun a b => a.doctoCcId ≠ b.doctoCcId)
    (hsome : ∀ q ∈ fs, q.tipoImpte = "C" → q.doctoCcId.isSome)
    (hlink : ∀ p ∈ fs, p.tipoImpte = "R" → ∃ q ∈ fs, q.tipoImpte = "C" ∧
      q.doctoCcId = p.doctoCcAcrId ∧ q.nombreCliente = p.nombreCliente)
    (hcent : ∀ r ∈ fs, Centavos (monto r)) :
    round2 (((fs.filter fun r => decide (r.nombreCliente = c)).map
        ReporteCxc.signo).sum)
      = ReporteCxc.sumaSaldosCliente fs c := by
  have hcentAb : ∀ oid, Centavos (ReporteCxc.abonosVinculados fs oid) := by
    intro oid
    cases oid with
    | none => exact centavos_zero
    | some i =>
        simp only [ReporteCxc.abonosVinculados]
        apply centavos_sum
        intro x hx
        obtain ⟨p, hp, rfl⟩ := List.mem_map.mp hx
        exact hcent p (List.mem_filter.mp hp).1
  have hlhs_cent : Centavos (((fs.filter fun r =>
      decide (r.nombreCliente = c)).map ReporteCxc.signo).sum) := by
    apply centavos_sum
    intro x hx
    obtain ⟨r, hr, rfl⟩ := List.mem_map.mp hx
    have hrf := (List.mem_filter.mp hr).1
    unfold ReporteCxc.signo
    by_cases hC : r.tipoImpte = "C"
    · rw [if_pos hC]
      exact hcent r hrf
    · by_cases hR : r.tipoImpte = "R"
      · rw [if_neg hC, if_pos hR]
        exact centavos_neg (hcent r hrf)
      · rw [if_neg hC, if_neg hR]
        exact centavos_zero
  rw [round2_eq_self hlhs_cent, sum_signo_split, List.filter_filter,
    List.filter_filter]
  unfold ReporteCxc.sumaSaldosCliente
  rw [filterMap_saldo_eq_map _
    (fun r => round2 (monto r - ReporteCxc.abonosVinculados fs r.doctoCcId))
    (by
      intro r hr
      have h1 := List.mem_filter.mp hr
      have hC : r.tipoImpte = "C" := by
        have := h1.2
        simp only [Bool.and_eq_true, decide_eq_true_eq] at this
        exact this.1
      exact hsaldo r h1.1 hC)]
  have hdesround : ((fs.filter fun r => decide (r.tipoImpte = "C") &&
      decide (r.nombreCliente = c)).map
        fun r => round2 (monto r - ReporteCxc.abonosVinculados fs r.doctoCcId))
      = (fs.filter fun r => decide (r.tipoImpte = "C") &&
          decide (r.nombreCliente = c)).map
        fun r => monto r - ReporteCxc.abonosVinculados fs r.doctoCcId := by
    apply List.map_congr_left
    intro r hr
    exact round2_eq_self (centavos_sub
      (hcent r (List.mem_filter.mp hr).1) (hcentAb r.doctoCcId))
  rw [hdesround, sum_map_sub]
  congr 1
  have habon : ((fs.filter fun r => decide (r.tipoImpte = "C") &&
      decide (r.nombreCliente = c)).map
        fun q => ReporteCxc.abonosVinculados fs q.doctoCcId)
      = (fs.filter fun r => decide (r.tipoImpte = "C") &&
          decide (r.nombreCliente = c)).map
        fun q => ((fs.filter fun p => decide (p.tipoImpte = "R") &&
          decide (p.doctoCcAcrId = q.doctoCcId)).map monto).sum := by
    apply List.map_congr_left
    intro q hq
    have h1 := List.mem_filter.mp hq
    have hC : q.tipoImpte = "C" := by
      have := h1.2
      simp only [Bool.and_eq_true, decide_eq_true_eq] at this
      exact this.1
    exact abonos_eq_filter fs q (hsome q h1.1 hC)
  rw [habon, sum_filter_swap]
  have hcount : ∀ p ∈ fs, p.tipoImpte = "R" →
      (((fs.filter fun r => decide (r.tipoImpte = "C") &&
          decide (r.nombreCliente = c)).filter fun q =>
            decide (p.doctoCcAcrId = q.doctoCcId)).length : ℚ)
        = if p.nombreCliente = c then 1 else 0 := by
    intro p hp hR
    obtain ⟨q0, hq0fs, hq0C, hq0id, hq0cl⟩ := hlink p hp hR
    have hq0all : q0 ∈ fs.filter fun q => decide (q.tipoImpte = "C") :=
      List.mem_filter.mpr ⟨hq0fs, by simp [hq0C]⟩
    have hkey := length_filter_unique
      (fs.filter fun q => decide (q.tipoImpte = "C")) hpair q0 hq0all
      (fun q => decide (q.nombreCliente = c))
    rw [hq0id] at hkey
    have hshape : ((fs.filter fun q => decide (q.tipoImpte = "C")).filter
        fun q => decide (q.nombreCliente = c) &&
          decide (p.doctoCcAcrId = q.doctoCcId))
        = ((fs.filter fun r => decide (r.tipoImpte = "C") &&
            decide (r.nombreCliente = c)).filter fun q =>
              decide (p.doctoCcAcrId = q.doctoCcId)) := by
      rw [List.filter_filter, List.filter_filter]
      apply List.filter_congr
      intro a _
      cases h1 : decide (a.tipoImpte = "C") <;>
        cases h2 : decide (a.nombreCliente = c) <;>
        cases h3 : decide (p.doctoCcAcrId = a.doctoCcId) <;> rfl
    rw [hshape] at hkey
    rw [hkey]
    by_cases hcl : q0.nombreCliente = c
    · rw [if_pos (by simp [hcl]), if_pos (by rw [← hq0cl]; exact hcl)]
      norm_num
    · rw [if_neg (by simp [hcl]), if_neg (by rw [← hq0cl]; exact hcl)]
      norm_num
  have hptw : (fs.map fun p => if p.tipoImpte = "R" then
      (((fs.filter fun r => decide (r.tipoImpte = "C") &&
          decide (r.nombreCliente = c)).filter fun q =>
            decide (p.doctoCcAcrId = q.doctoCcId)).length : ℚ) * monto p
      else 0)
      = fs.map fun p => if (decide (p.tipoImpte = "R") &&
          decide (p.nombreCliente = c) : Bool) then monto p else 0 := by
    apply List.map_congr_left
    intro p hp
    by_cases hR : p.tipoImpte = "R"
    · rw [if_pos hR, hcount p hp hR]
      by_cases hcl : p.nombreCliente = c
      · rw [if_pos hcl, if_pos (by simp [hR, hcl])]
        ring
      · rw [if_neg hcl, if_neg (by simp [hcl])]
        ring
    · rw [if_neg hR, if_neg (by simp [hR])]
  rw [hptw, sum_ite_filter]

theorem abonos_map (l : List Fila) (f : Fila → Fila)
    (hf : ∀ a, (f a).tipoImpte = a.tipoImpte ∧
      (f a).doctoCcAcrId = a.doctoCcAcrId ∧ monto (f a) = monto a)
    (oid : Option ℤ) :
    ReporteCxc.abonosVinculados (l.map f) oid
      = ReporteCxc.abonosVinculados l oid := by
  cases oid with
  | none => rfl
  | some i =>
      simp only [ReporteCxc.abonosVinculados]
      rw [List.filter_map, List.map_map]
      have hfil : (l.filter ((fun p => decide
          (p.tipoImpte = "R" ∧ p.doctoCcAcrId = some i)) ∘ f))
          = l.filter fun p => decide
            (p.tipoImpte = "R" ∧ p.doctoCcAcrId = some i) := by
        apply List.filter_congr
        intro a _
        simp only [Function.comp, decide_eq_decide, (hf a).1, (hf a).2.1]
      rw [hfil]
      congr 1
      apply List.map_congr_left
      intro a _
      exact (hf a).2.2

/-- The table produced by the first two pipeline stages: filtered
movements with `SALDO_FACTURA` computed. -/
def tablaSaldos (t : Tabla) : Tabla :=
  ReporteCxc.calcularSaldoFactura (ReporteCxc.filtrarMovimientos t)

theorem saldo_en_salida (v : Tabla)
    (hA : v.tieneAcrId = true) (hD : v.tieneDoctoId = true) :
    ∀ r ∈ (ReporteCxc.calcularSaldoFactura v).filas, r.tipoImpte = "C" →
      r.saldoFactura = some (round2 (monto r -
        ReporteCxc.abonosVinculados
          (ReporteCxc.calcularSaldoFactura v).filas r.doctoCcId)) := by
  intro r hr hC
  unfold ReporteCxc.calcularSaldoFactura at hr ⊢
  rw [if_pos (by rw [hA, hD]; exact ⟨rfl, rfl⟩)] at hr ⊢
  obtain ⟨a, ha, rfl⟩ := List.mem_map.mp hr
  have haC : a.tipoImpte = "C" := by
    by_cases h : a.tipoImpte = "C"
    · exact h
    · rw [if_neg h] at hC
      exact absurd hC h
  rw [if_pos haC] at hC ⊢
  have habo := abonos_map v.filas
    (fun x => if x.tipoImpte = "C" then
      { x with saldoFactura := (some (round2 (monto x -
          ReporteCxc.abonosVinculados v.filas x.doctoCcId))) }
      else x)
    (by
      intro x
      by_cases h : x.tipoImpte = "C"
      · simp [h, monto]
      · simp [h])
    a.doctoCcId
  simp only [monto] at habo ⊢
  rw [habo]

theorem ultimo_eq_suma (u : Tabla) (c : String)
    (hex : ∃ r ∈ u.filas, r.nombreCliente = c)
    (hsaldo : ∀ r ∈ u.filas, r.tipoImpte = "C" → r.saldoFactura
      = some (round2 (monto r - ReporteCxc.abonosVinculados u.filas r.doctoCcId)))
    (hpair : (u.filas.filter fun q => decide (q.tipoImpte = "C")).Pairwise
      fun a b => a.doctoCcId ≠ b.doctoCcId)
    (hsome : ∀ q ∈ u.filas, q.tipoImpte = "C" → q.doctoCcId.isSome)
    (hlink : ∀ p ∈ u.filas, p.tipoImpte = "R" → ∃ q ∈ u.filas,
      q.tipoImpte = "C" ∧ q.doctoCcId = p.doctoCcAcrId ∧
        q.nombreCliente = p.nombreCliente)
    (hcent : ∀ r ∈ u.filas, Centavos (monto r)) :
    ReporteCxc.ultimoSaldoCliente u c
      = some (ReporteCxc.sumaSaldosCliente u.filas c) := by
  unfold ReporteCxc.ultimoSaldoCliente ReporteCxc.calcularSaldoCliente
  have hexs : ∃ r ∈ ReporteCxc.ordenarMovimientos u.filas,
      r.nombreCliente = c := by
    obtain ⟨r, hr, hrc⟩ := hex
    refine ⟨r, ?_, hrc⟩
    unfold ReporteCxc.ordenarMovimientos
    exact List.mem_mergeSort.mpr hr
  rw [cumsum_ultimo _ _ _ hexs]
  have hperm : ((ReporteCxc.ordenarMovimientos u.filas).filter
      fun r => decide (r.nombreCliente = c)).map ReporteCxc.signo
      |>.Perm ((u.filas.filter fun r =>
        decide (r.nombreCliente = c)).map ReporteCxc.signo) := by
    apply List.Perm.map
    apply List.Perm.filter
    unfold ReporteCxc.ordenarMovimientos
    exact List.mergeSort_perm u.filas ReporteCxc.ordenMovs
  rw [zero_add, hperm.sum_eq,
    reconciliacion_nucleo u.filas c hsaldo hpair hsome hlink hcent]

/-- C2 (amended): provided every charge of the filtered table has a
distinct non-null id, every payment references via `DOCTO_CC_ACR_ID` a
charge of the same client, and every amount is a whole number of cents,
the running balance at a client's last row after the deterministic sort
equals the sum of that client's per-invoice outstanding balances.
Without these hypotheses the claim is false (see the counterexample):
a payment whose reference matches no charge, or a payment applied to
another client's charge, moves the running balance but no invoice
balance. -/
theorem saldo_cliente_reconciliacion (t : Tabla) (c : String)
    (hA : t.tieneAcrId = true) (hD : t.tieneDoctoId = true)
    (hex : ∃ r ∈ (tablaSaldos t).filas, r.nombreCliente = c)
    (hpair : ((tablaSaldos t).filas.filter
      fun q => decide (q.tipoImpte = "C")).Pairwise
        fun a b => a.doctoCcId ≠ b.doctoCcId)
    (hsome : ∀ q ∈ (tablaSaldos t).filas, q.tipoImpte = "C" →
      q.doctoCcId.isSome)
    (hlink : ∀ p ∈ (tablaSaldos t).filas, p.tipoImpte = "R" →
      ∃ q ∈ (tablaSaldos t).filas, q.tipoImpte = "C" ∧
        q.doctoCcId = p.doctoCcAcrId ∧ q.nombreCliente = p.nombreCliente)
    (hcent : ∀ r ∈ (tablaSaldos t).filas, Centavos (monto r)) :
    ReporteCxc.ultimoSaldoCliente (tablaSaldos t) c
      = some (ReporteCxc.sumaSaldosCliente (tablaSaldos t).filas c) :=
  ultimo_eq_suma (tablaSaldos t) c hex
    (saldo_en_salida (ReporteCxc.filtrarMovimientos t) hA hD)
    hpair hsome hlink hcent

/-- A charge and a payment of the same client whose reference id (2)
matches no charge. -/
def tablaC2 : Tabla :=
  { filas := [
      { doctoCcId := some 1, tipoImpte := "C", nombreCliente := "X",
        importe := some 100, impuesto := some 0 },
      { doctoCcId := some 5, doctoCcAcrId := some 2, tipoImpte := "R",
        nombreCliente := "X", importe := some 50, impuesto := some 0 } ] }

/-- The charge row of `tablaC2` after the balance stage. -/
def filaC2ch : Fila :=
  { doctoCcId := some 1, tipoImpte := "C", nombreCliente := "X",
    importe := some 100, impuesto := some 0, saldoFactura := some 100 }

/-- The payment row of `tablaC2` after the balance stage. -/
def filaC2pg : Fila :=
  { doctoCcId := some 5, doctoCcAcrId := some 2, tipoImpte := "R",
    nombreCliente := "X", importe := some 50, impuesto := some 0 }

theorem tablaC2_saldos : (tablaSaldos tablaC2).filas = [filaC2ch, filaC2pg] := by
  have h100 : round2 (100:ℚ) = 100 := round2_eq_self ⟨10000, by norm_num⟩
  simp +decide [tablaC2, tablaSaldos, ReporteCxc.filtrarMovimientos,
    ReporteCxc.calcularSaldoFactura, ReporteCxc.abonosVinculados,
    esCancelado, valoresCancelado, monto, List.filter_cons,
    filaC2ch, filaC2pg]
  norm_num [h100]

/-- Counterexample to C2 as stated: on `tablaC2` the dangling payment
lowers the client running balance to 50, while the sum of the client's
invoice balances is 100 — the reconciliation invariant fails without
further hypotheses on the payment linkage. -/
theorem saldo_cliente_contraejemplo :
    ReporteCxc.ultimoSaldoCliente (tablaSaldos tablaC2) "X" = some 50
    ∧ ReporteCxc.sumaSaldosCliente (tablaSaldos tablaC2).filas "X" = 100
    ∧ (50 : ℚ) ≠ 100 := by
  have h100 : round2 (100:ℚ) = 100 := round2_eq_self ⟨10000, by norm_num⟩
  have h50 : round2 (50:ℚ) = 50 := round2_eq_self ⟨5000, by norm_num⟩
  have hpw : List.Pairwise (fun a b => ReporteCxc.ordenMovs a b = true)
      [filaC2ch, filaC2pg] := by decide
  have hsorted : ReporteCxc.ordenarMovimientos [filaC2ch, filaC2pg]
      = [filaC2ch, filaC2pg] := by
    unfold ReporteCxc.ordenarMovimientos
    exact List.mergeSort_of_sorted hpw
  refine ⟨?_, ?_, by norm_num⟩
  · unfold ReporteCxc.ultimoSaldoCliente ReporteCxc.calcularSaldoCliente
    rw [tablaC2_saldos, hsorted]
    simp +decide [ReporteCxc.cumsumPorCliente, ReporteCxc.signo, monto,
      filaC2ch, filaC2pg, List.filter_cons]
    norm_num [h100, h50]
  · rw [tablaC2_saldos]
    simp +decide [ReporteCxc.sumaSaldosCliente, filaC2ch, filaC2pg,
      List.filter_cons]

/-- A properly linked ledger: one charge of client X, one payment of
client X referencing it. -/
def tablaC2b : Tabla :=
  { filas := [
      { doctoCcId := some 1, tipoImpte := "C", nombreCliente := "X",
        importe := some 100, impuesto := some 0 },
      { doctoCcId := some 5, doctoCcAcrId := some 1, tipoImpte := "R",
        nombreCliente := "X", importe := some 30, impuesto := some 0 } ] }

/-- The charge row of `tablaC2b` after the balance stage. -/
def filaC2bch : Fila :=
  { doctoCcId := some 1, tipoImpte := "C", nombreCliente := "X",
    importe := some 100, impuesto := some 0, saldoFactura := some 70 }

/-- The payment row of `tablaC2b` after the balance stage. -/
def filaC2bpg : Fila :=
  { doctoCcId := some 5, doctoCcAcrId := some 1, tipoImpte := "R",
    nombreCliente := "X", importe := some 30, impuesto := some 0 }

theorem tablaC2b_saldos :
    (tablaSaldos tablaC2b).filas = [filaC2bch, filaC2bpg] := by
  have h70 : round2 (70:ℚ) = 70 := round2_eq_self ⟨7000, by norm_num⟩
  simp +decide [tablaC2b, tablaSaldos, ReporteCxc.filtrarMovimientos,
    ReporteCxc.calcularSaldoFactura, ReporteCxc.abonosVinculados,
    esCancelado, valoresCancelado, monto, List.filter_cons,
    filaC2bch, filaC2bpg]
  norm_num [h70]

/-- Witness for the amended C2 at `tablaC2b`: every hypothesis holds
and the reconciled value is 70 on both sides. -/
theorem saldo_cliente_reconciliacion_witness :
    ReporteCxc.ultimoSaldoCliente (tablaSaldos tablaC2b) "X"
      = some (ReporteCxc.sumaSaldosCliente (tablaSaldos tablaC2b).filas "X")
    ∧ ReporteCxc.sumaSaldosCliente (tablaSaldos tablaC2b).filas "X" = 70 := by
  have hsuma : ReporteCxc.sumaSaldosCliente (tablaSaldos tablaC2b).filas "X"
      = 70 := by
    rw [tablaC2b_saldos]
    simp +decide [ReporteCxc.sumaSaldosCliente, filaC2bch, filaC2bpg,
      List.filter_cons]
  refine ⟨?_, hsuma⟩
  apply saldo_cliente_reconciliacion tablaC2b "X" rfl rfl
  · exact ⟨filaC2bch, by rw [tablaC2b_saldos]; exact List.mem_cons_self _ _, rfl⟩
  · rw [tablaC2b_saldos]
    decide
  · rw [tablaC2b_saldos]
    decide
  · rw [tablaC2b_saldos]
    decide
  · rw [tablaC2b_saldos]
    intro r hr
    simp only [List.mem_cons, List.not_mem_nil, or_false] at hr
    rcases hr with rfl | rfl
    · exact ⟨10000, by norm_num [monto, filaC2bch]⟩
    · exact ⟨3000, by norm_num [monto, filaC2bpg]⟩

-- ====================================================================
-- PRINCIPAL-PLUS-TAX INVARIANCE (C4)
-- ====================================================================

/-- Two row lists that agree everywhere except that value may have been
moved between `IMPORTE` and `IMPUESTO`, keeping `IMPORTE + IMPUESTO`. -/
def MismoMonto (fs gs : List Fila) : Prop :=
  List.Forall₂ (fun a b => monto a = monto b ∧
    b = { a with importe := b.importe, impuesto := b.impuesto }) fs gs

/-- Two row lists that agree everywhere except in `IMPUESTO` (so the
principal `IMPORTE` is unchanged but the total amount may differ). -/
def SoloImpuestoDistinto (fs gs : List Fila) : Prop :=
  List.Forall₂ (fun a b => b = { a with impuesto := b.impuesto }) fs gs

theorem map_eq_of_forall2 {α β : Type} {R : α → α → Prop}
    {fs gs : List α} (h : List.Forall₂ R fs gs) (f g : α → β)
    (hfg : ∀ a b, R a b → f a = g b) : fs.map f = gs.map g := by
  induction h with
  | nil => rfl
  | cons hab _ ih => simp [List.map_cons, hfg _ _ hab, ih]

theorem forall2_filter {R : Fila → Fila → Prop} (p q : Fila → Bool)
    (hpq : ∀ a b, R a b → p a = q b) :
    ∀ {fs gs : List Fila}, List.Forall₂ R fs gs →
      List.Forall₂ R (fs.filter p) (gs.filter q) := by
  intro fs gs h
  induction h with
  | nil => exact List.Forall₂.nil
  | cons hab htail ih =>
      rename_i a b fs2 gs2
      rw [List.filter_cons, List.filter_cons]
      by_cases hp : p a
      · rw [if_pos hp, if_pos (by rw [← hpq a b hab]; exact hp)]
        exact List.Forall₂.cons hab ih
      · rw [if_neg hp, if_neg (by rw [← hpq a b hab]; exact hp)]
        exact ih

theorem mismoMonto_campos {a b : Fila}
    (h : monto a = monto b ∧
      b = { a with importe := b.importe, impuesto := b.impuesto }) :
    b.tipoImpte = a.tipoImpte ∧ b.doctoCcAcrId = a.doctoCcAcrId ∧
      b.doctoCcId = a.doctoCcId ∧ b.nombreCliente = a.nombreCliente ∧
      b.fechaEmision = a.fechaEmision ∧ b.saldoFactura = a.saldoFactura := by
  rw [h.2]
  exact ⟨rfl, rfl, rfl, rfl, rfl, rfl⟩

/-- Two tables with the same montos: a charge gets one principal/tax
split in the first and one with 6 moved from principal to tax in the
second. -/
def tablaC4a : Tabla :=
  { filas := [
      { doctoCcId := some 1, tipoImpte := "C", importe := some 10,
        impuesto := some 0 },
      { doctoCcId := some 2, tipoImpte := "C", importe := some 10,
        impuesto := some 0 },
      { doctoCcId := some 3, tipoImpte := "C", importe := some 10,
        impuesto := some 0 } ] }

/-- Same montos as `tablaC4a` (all three equal 10), but the third
charge has principal 4 and tax 6. -/
def tablaC4b : Tabla :=
  { filas := [
      { doctoCcId := some 1, tipoImpte := "C", importe := some 10,
        impuesto := some 0 },
      { doctoCcId := some 2, tipoImpte := "C", importe := some 10,
        impuesto := some 0 },
      { doctoCcId := some 3, tipoImpte := "C", importe := some 4,
        impuesto := some 6 } ] }

/-- Counterexample to C4 as stated: the two tables carry identical
row amounts (IMPORTE + IMPUESTO), yet the outlier detector's z-score
column differs — it is computed from the principal alone, so it sees a
constant series on one table and a dispersed one on the other. -/
theorem zscore_monto_contraejemplo :
    tablaC4a.filas.map monto = tablaC4b.filas.map monto
    ∧ ((ReporteCxc.agregarZscores tablaC4a 3).filas.map fun r => r.zsqImporte)
        = [none, none, none]
    ∧ ((ReporteCxc.agregarZscores tablaC4b 3).filas.map fun r => r.zsqImporte)
        = [some (1/3), some (1/3), some (4/3)]
    ∧ ([none, none, none] : List (Option ℚ))
        ≠ [some (1/3), some (1/3), some (4/3)] := by
  have hma : ReporteCxc.serieImportes tablaC4a.filas = [10, 10, 10] := by
    simp +decide [tablaC4a, ReporteCxc.serieImportes, List.filter_cons]
  have hmb : ReporteCxc.serieImportes tablaC4b.filas = [10, 10, 4] := by
    simp +decide [tablaC4b, ReporteCxc.serieImportes, List.filter_cons]
  have hva : varMuestral [(10:ℚ), 10, 10] = 0 := by
    norm_num [varMuestral, media]
  have hvb : varMuestral [(10:ℚ), 10, 4] = 12 := by
    norm_num [varMuestral, media]
  have hmedb : media [(10:ℚ), 10, 4] = 8 := by
    norm_num [media]
  refine ⟨?_, ?_, ?_, by simp⟩
  · simp +decide [tablaC4a, tablaC4b, monto]
    norm_num
  · rw [map_zsqImporte_agregar, hma, hva]
    simp +decide [tablaC4a]
  · rw [map_zsqImporte_agregar, hmb, hvb, hmedb]
    simp +decide [tablaC4b]
    norm_num

theorem filterMap_eq_of_forall2 {R : Fila → Fila → Prop}
    {fs gs : List Fila} (h : List.Forall₂ R fs gs)
    (f g : Fila → Option ℚ) (hfg : ∀ a b, R a b → f a = g b) :
    fs.filterMap f = gs.filterMap g := by
  induction h with
  | nil => rfl
  | cons hab htl ih =>
      rename_i a b fs2 gs2
      rw [List.filterMap_cons, List.filterMap_cons, hfg a b hab, ih]

theorem saldoSegunSpec_mismoMonto {fs gs : List Fila}
    (hm : MismoMonto fs gs) {a b : Fila}
    (hab : monto a = monto b ∧
      b = { a with importe := b.importe, impuesto := b.impuesto }) :
    saldoSegunSpec fs a = saldoSegunSpec gs b := by
  obtain ⟨htipo, hacr, hid, -, -, -⟩ := mismoMonto_campos hab
  unfold saldoSegunSpec
  rw [hab.1]
  have hsum : ((fs.filter fun p =>
      (p.tipoImpte = "R" ∧ p.doctoCcAcrId.isSome ∧
        p.doctoCcAcrId = a.doctoCcId : Prop)).map monto).sum
      = ((gs.filter fun p =>
        (p.tipoImpte = "R" ∧ p.doctoCcAcrId.isSome ∧
          p.doctoCcAcrId = b.doctoCcId : Prop)).map monto).sum := by
    apply congrArg List.sum
    apply map_eq_of_forall2 (forall2_filter _ _ ?_ hm) monto monto
      fun p q hpq => hpq.1
    intro p q hpq
    obtain ⟨htipo2, hacr2, -, -, -, -⟩ := mismoMonto_campos hpq
    simp only [decide_eq_decide, htipo2, hacr2, hid]
  rw [hsum]

theorem soloImpuesto_campos {a b : Fila}
    (h : b = { a with impuesto := b.impuesto }) :
    b.tipoImpte = a.tipoImpte ∧ b.importe = a.importe := by
  rw [h]
  exact ⟨rfl, rfl⟩

/-- C4 (amended): the balance engine, the running balance and the CEI
aggregate are computed from `IMPORTE + IMPUESTO` — moving value between
principal and tax never changes them — but the outlier statistics over
charge amounts are computed from the principal `IMPORTE` alone: they are
unchanged when only `IMPUESTO` varies, and (see the counterexample) they
do change under monto-preserving principal/tax transfers. -/
theorem monto_es_principal_mas_impuesto (t : Tabla) (gs gs2 : List Fila)
    (u : ℚ) (inicio hoy : ℤ)
    (hA : t.tieneAcrId = true) (hD : t.tieneDoctoId = true)
    (hm : MismoMonto t.filas gs) (hi : SoloImpuestoDistinto t.filas gs2) :
    (((ReporteCxc.calcularSaldoFactura t).filas.filter
        fun r => r.tipoImpte = "C").map fun r => r.saldoFactura)
      = (((ReporteCxc.calcularSaldoFactura { t with filas := gs }).filas.filter
          fun r => r.tipoImpte = "C").map fun r => r.saldoFactura)
    ∧ ((Kpis.saldosPorFactura t).map fun s => s.saldo)
      = ((Kpis.saldosPorFactura { t with filas := gs }).map fun s => s.saldo)
    ∧ (∀ c, ((t.filas.filter fun r => decide (r.nombreCliente = c)).map
        ReporteCxc.signo).sum
      = ((gs.filter fun r => decide (r.nombreCliente = c)).map
          ReporteCxc.signo).sum)
    ∧ Kpis.calcularCei t.filas inicio hoy = Kpis.calcularCei gs inicio hoy
    ∧ ((ReporteCxc.agregarZscores t u).filas.map fun r => r.zsqImporte)
      = ((ReporteCxc.agregarZscores { t with filas := gs2 } u).filas.map
          fun r => r.zsqImporte) := by
  have hccl : ∀ (a b : Fila), (monto a = monto b ∧
      b = { a with importe := b.importe, impuesto := b.impuesto }) →
      ∀ str : String, decide (a.tipoImpte = str) = decide (b.tipoImpte = str) := by
    intro a b hab str
    rw [(mismoMonto_campos hab).1]
  refine ⟨?_, ?_, ?_, ?_, ?_⟩
  · rw [saldoFactura_map_eq t hA hD,
      saldoFactura_map_eq { t with filas := gs } hA hD]
    apply map_eq_of_forall2 (forall2_filter _ _ (fun a b hab => hccl a b hab "C") hm)
    intro a b hab
    rw [saldoSegunSpec_mismoMonto hm hab]
  · rw [saldosPorFactura_map_eq t hA hD,
      saldosPorFactura_map_eq { t with filas := gs } hA hD]
    apply map_eq_of_forall2 (forall2_filter _ _ (fun a b hab => hccl a b hab "C") hm)
    intro a b hab
    exact saldoSegunSpec_mismoMonto hm hab
  · intro c
    apply congrArg List.sum
    apply map_eq_of_forall2 (forall2_filter _ _ ?_ hm)
    · intro a b hab
      obtain ⟨htipo, -, -, -, -, -⟩ := mismoMonto_campos hab
      unfold ReporteCxc.signo
      rw [htipo, hab.1]
    · intro a b hab
      rw [(mismoMonto_campos hab).2.2.2.1]
  · have hcar : ∀ i0 h0, Kpis.cargosPeriodo t.filas i0 h0
        = Kpis.cargosPeriodo gs i0 h0 := by
      intro i0 h0
      apply congrArg List.sum
      apply map_eq_of_forall2 (forall2_filter _ _ ?_ hm) monto monto
        fun p q hpq => hpq.1
      intro a b hab
      obtain ⟨htipo, -, -, -, hfec, -⟩ := mismoMonto_campos hab
      rw [htipo, hfec]
    have hcob : ∀ i0 h0, Kpis.cobrosPeriodo t.filas i0 h0
        = Kpis.cobrosPeriodo gs i0 h0 := by
      intro i0 h0
      apply congrArg List.sum
      apply map_eq_of_forall2 (forall2_filter _ _ ?_ hm) monto monto
        fun p q hpq => hpq.1
      intro a b hab
      obtain ⟨htipo, -, -, -, hfec, -⟩ := mismoMonto_campos hab
      rw [htipo, hfec]
    have hact : Kpis.saldoActualCei t.filas = Kpis.saldoActualCei gs := by
      unfold Kpis.saldoActualCei
      have h1 : ((t.filas.filter fun r =>
          decide (r.tipoImpte = "C")).map monto).sum
          = ((gs.filter fun r => decide (r.tipoImpte = "C")).map monto).sum := by
        apply congrArg List.sum
        exact map_eq_of_forall2
          (forall2_filter _ _ (fun a b hab => hccl a b hab "C") hm)
          monto monto fun p q hpq => hpq.1
      have h2 : ((t.filas.filter fun r =>
          decide (r.tipoImpte = "R")).map monto).sum
          = ((gs.filter fun r => decide (r.tipoImpte = "R")).map monto).sum := by
        apply congrArg List.sum
        exact map_eq_of_forall2
          (forall2_filter _ _ (fun a b hab => hccl a b hab "R") hm)
          monto monto fun p q hpq => hpq.1
      rw [h1, h2]
    unfold Kpis.calcularCei Kpis.cobrableCei Kpis.saldoInicioCei
    rw [hcar, hcob, hact]
  · rw [map_zsqImporte_agregar, map_zsqImporte_agregar]
    have hser : ReporteCxc.serieImportes t.filas
        = ReporteCxc.serieImportes gs2 := by
      unfold ReporteCxc.serieImportes
      apply filterMap_eq_of_forall2 (forall2_filter _ _ ?_ hi)
      · intro a b hab
        rw [(soloImpuesto_campos hab).2]
      · intro a b hab
        rw [(soloImpuesto_campos hab).1]
    rw [hser]
    apply map_eq_of_forall2 hi
    intro a b hab
    obtain ⟨htipo, himp⟩ := soloImpuesto_campos hab
    rw [htipo, himp]

theorem monto_es_principal_mas_impuesto_witness :
    (tablaC4a.tieneAcrId = true ∧ tablaC4a.tieneDoctoId = true
      ∧ MismoMonto tablaC4a.filas tablaC4b.filas
      ∧ SoloImpuestoDistinto tablaC4a.filas tablaC4a.filas)
    ∧ ((((ReporteCxc.calcularSaldoFactura tablaC4a).filas.filter
          fun r => r.tipoImpte = "C").map fun r => r.saldoFactura)
        = (((ReporteCxc.calcularSaldoFactura
            { tablaC4a with filas := tablaC4b.filas }).filas.filter
            fun r => r.tipoImpte = "C").map fun r => r.saldoFactura)
      ∧ ((Kpis.saldosPorFactura tablaC4a).map fun s => s.saldo)
        = ((Kpis.saldosPorFactura
            { tablaC4a with filas := tablaC4b.filas }).map fun s => s.saldo)
      ∧ (∀ c, ((tablaC4a.filas.filter fun r =>
            decide (r.nombreCliente = c)).map ReporteCxc.signo).sum
          = ((tablaC4b.filas.filter fun r =>
              decide (r.nombreCliente = c)).map ReporteCxc.signo).sum)
      ∧ Kpis.calcularCei tablaC4a.filas 0 100
          = Kpis.calcularCei tablaC4b.filas 0 100
      ∧ ((ReporteCxc.agregarZscores tablaC4a 3).filas.map
            fun r => r.zsqImporte)
        = ((ReporteCxc.agregarZscores
            { tablaC4a with filas := tablaC4a.filas } 3).filas.map
            fun r => r.zsqImporte)) := by
  have hm : MismoMonto tablaC4a.filas tablaC4b.filas := by
    simp only [MismoMonto, tablaC4a, tablaC4b]
    refine List.Forall₂.cons ⟨rfl, rfl⟩
      (List.Forall₂.cons ⟨rfl, rfl⟩
        (List.Forall₂.cons ⟨by norm_num [monto], rfl⟩ List.Forall₂.nil))
  have hi : SoloImpuestoDistinto tablaC4a.filas tablaC4a.filas := by
    simp only [SoloImpuestoDistinto, tablaC4a]
    refine List.Forall₂.cons rfl
      (List.Forall₂.cons rfl (List.Forall₂.cons rfl List.Forall₂.nil))
  exact ⟨⟨rfl, rfl, hm, hi⟩,
    monto_es_principal_mas_impuesto tablaC4a tablaC4b.filas tablaC4a.filas
      3 0 100 rfl rfl hm hi⟩

/-- Embedding of `Auditor._detectar_sin_tipo_cliente`: all rows of the
(unfiltered, auditor-prepared) table whose `TIPO_CLIENTE` is null; empty
when the column is absent.  The textual MOTIVO column is not modelled. -/
def Auditor.detectarSinTipoCliente (t : Tabla) : List Fila :=
  if t.tieneTipoCliente then t.filas.filter (fun r => r.tipoCliente.isNone)
  else []

/-- Embedding of `Auditor._detectar_sin_vendedor`: all rows of the
(unfiltered, auditor-prepared) table whose `VENDEDOR` is null; empty when
the column is absent. -/
def Auditor.detectarSinVendedor (t : Tabla) : List Fila :=
  if t.tieneVendedor then t.filas.filter (fun r => r.vendedor.isNone)
  else []

/-- Embedding of `Auditor._analizar_cancelados`: the rows whose
`CANCELADO` value is one of `_CANCELADO_VALUES`; empty when the column is
absent.  The MOTIVO and DIAS_HASTA_CANCELACION columns are presentational
and not modelled. -/
def Auditor.analizarCancelados (t : Tabla) : List Fila :=
  if t.tieneCancelado then t.filas.filter esCancelado
  else []

/-- A single cancelled sale whose client has no type and no salesperson
assigned. -/
def filaC5 : Fila :=
  { doctoCcId := some 1, tipoImpte := "C", importe := some 50,
    cancelado := "S", tipoCliente := none, vendedor := none }

def tablaC5 : Tabla := { filas := [filaC5] }

/-- Counterexample to C5 as stated: `run_audit` works on the unfiltered
prepared table, so the cancelled row is excluded from the report and KPI
pipelines but still appears in the auditor's missing-reference findings
(`sin_tipo_cliente`, `sin_vendedor`) — not only in the
cancellation-specific summary. -/
theorem cancelados_en_auditoria_contraejemplo :
    esCancelado filaC5 = true
    ∧ (ReporteCxc.filtrarMovimientos tablaC5).filas = []
    ∧ (Kpis.filtrarActivos tablaC5).filas = []
    ∧ Auditor.detectarSinTipoCliente tablaC5 = [filaC5]
    ∧ Auditor.detectarSinVendedor tablaC5 = [filaC5] := by
  refine ⟨rfl, ?_, ?_, ?_, ?_⟩ <;>
    simp +decide [ReporteCxc.filtrarMovimientos, Kpis.filtrarActivos,
      Auditor.detectarSinTipoCliente, Auditor.detectarSinVendedor,
      tablaC5, filaC5, List.filter_cons]

/-- C5 (amended): when the `CANCELADO` column is present, the report and
KPI pipelines drop every cancelled row before any computation (and the
cancellation summary is exactly the cancelled rows), but the auditor's
missing-reference findings are computed over the UNFILTERED table: a
cancelled row with a null client type or salesperson still appears
there. -/
theorem cancelados_excluidos_de_pipelines (t : Tabla)
    (h : t.tieneCancelado = true) :
    (ReporteCxc.filtrarMovimientos t).filas.filter esCancelado = []
    ∧ (Kpis.filtrarActivos t).filas.filter esCancelado = []
    ∧ Auditor.analizarCancelados t = t.filas.filter esCancelado
    ∧ (∀ r ∈ t.filas, esCancelado r = true →
        (r.tipoCliente.isNone = true → t.tieneTipoCliente = true →
          r ∈ Auditor.detectarSinTipoCliente t)
        ∧ (r.vendedor.isNone = true → t.tieneVendedor = true →
          r ∈ Auditor.detectarSinVendedor t)) := by
  refine ⟨?_, ?_, ?_, ?_⟩
  · rw [List.filter_eq_nil_iff]
    intro a ha
    simp only [ReporteCxc.filtrarMovimientos, h, if_true, List.mem_filter,
      Bool.not_eq_true'] at ha
    simp [ha.1.2]
  · rw [List.filter_eq_nil_iff]
    intro a ha
    simp only [Kpis.filtrarActivos, h, if_true, List.mem_filter,
      Bool.not_eq_true'] at ha
    simp [ha.1.2]
  · simp [Auditor.analizarCancelados, h]
  · intro r hr _hc
    constructor
    · intro hn ht
      simp [Auditor.detectarSinTipoCliente, ht, List.mem_filter, hr, hn]
    · intro hn ht
      simp [Auditor.detectarSinVendedor, ht, List.mem_filter, hr, hn]

theorem cancelados_excluidos_de_pipelines_witness :
    tablaC5.tieneCancelado = true
    ∧ ((ReporteCxc.filtrarMovimientos tablaC5).filas.filter esCancelado = []
      ∧ (Kpis.filtrarActivos tablaC5).filas.filter esCancelado = []
      ∧ Auditor.analizarCancelados tablaC5 = tablaC5.filas.filter esCancelado
      ∧ (∀ r ∈ tablaC5.filas, esCancelado r = true →
          (r.tipoCliente.isNone = true → tablaC5.tieneTipoCliente = true →
            r ∈ Auditor.detectarSinTipoCliente tablaC5)
          ∧ (r.vendedor.isNone = true → tablaC5.tieneVendedor = true →
            r ∈ Auditor.detectarSinVendedor tablaC5))) :=
  ⟨rfl, cancelados_excluidos_de_pipelines tablaC5 rfl⟩

namespace Kpis

/-- Unique client names of the balance table, ascending — the index of
the pandas `groupby("NOMBRE_CLIENTE")`. -/
def clientesUnicos (ss : List SaldoFac) : List String :=
  ((ss.map fun s => s.nombreCliente).dedup).mergeSort strLe

/-- Per-client outstanding balance: `groupby("NOMBRE_CLIENTE")["SALDO"]
.sum().round(2)`. -/
def saldoPorCliente (ss : List SaldoFac) (c : String) : ℚ :=
  round2 (((ss.filter fun s => s.nombreCliente = c).map fun s => s.saldo).sum)

/-- The grouped table sorted by balance, descending
(`sort_values("SALDO", ascending=False)`). -/
def porCliente (ss : List SaldoFac) : List (String × ℚ) :=
  ((clientesUnicos ss).map fun c => (c, saldoPorCliente ss c)).mergeSort
    (fun a b => decide (b.2 ≤ a.2))

/-- One row of the concentration (Pareto/ABC) table produced by
`kpis._calcular_concentracion`. -/
structure FilaConc where
  nombreCliente : String
  saldo : ℚ
  pctDelTotal : ℚ
  pctAcumulado : ℚ
  clasificacion : String
  deriving DecidableEq, Repr

/-- Builds the concentration rows: `PCT_DEL_TOTAL = (SALDO / total *
100).round(2)`; `PCT_ACUMULADO` is the running sum of the rounded
percentages, itself rounded (`cumsum().round(2)`); classification A/B/C
by the 80 / 95 thresholds on `PCT_ACUMULADO`. -/
def concAux (total : ℚ) : ℚ → List (String × ℚ) → List FilaConc
  | _, [] => []
  | acc, (c, s) :: rest =>
      let pct := round2 (s / total * 100)
      let acum := acc + pct
      { nombreCliente := c, saldo := s, pctDelTotal := pct,
        pctAcumulado := round2 acum,
        clasificacion :=
          (if round2 acum ≤ 80 then "A"
           else if round2 acum ≤ 95 then "B" else "C") }
        :: concAux total acum rest

/-- Embedding of `kpis._calcular_concentracion`: group balances by
client, sort descending, guard `total ≤ 0`, then percentages, rounded
cumulative percentages and the ABC classification. -/
def calcularConcentracion (ss : List SaldoFac) : List FilaConc :=
  let pc := porCliente ss
  let total := (pc.map fun p => p.2).sum
  if total ≤ 0 then [] else concAux total 0 pc

end Kpis

/-- Balance table with an overpaid client: client A owes 100, client B
has a net credit of 50 (payments exceeding the charge). -/
def ssC6 : List Kpis.SaldoFac :=
  [ { doctoCcId := some 1, nombreCliente := "A", fechaVencimiento := none,
      fechaEmision := none, montoCargo := 100, montoAbonos := 0,
      saldo := 100 },
    { doctoCcId := some 2, nombreCliente := "B", fechaVencimiento := none,
      fechaEmision := none, montoCargo := 50, montoAbonos := 100,
      saldo := -50 } ]

theorem ssC6_porCliente : Kpis.porCliente ssC6 = [("A", 100), ("B", -50)] := by
  have hd : ((ssC6.map fun s => s.nombreCliente).dedup) = ["A", "B"] := by
    decide
  have hcu : Kpis.clientesUnicos ssC6 = ["A", "B"] := by
    unfold Kpis.clientesUnicos
    rw [hd]
    exact List.mergeSort_of_sorted (by decide)
  have hsA : Kpis.saldoPorCliente ssC6 "A" = 100 := by
    have h : ((ssC6.filter fun s => s.nombreCliente = "A").map
        fun s => s.saldo).sum = 100 := by
      simp +decide [ssC6, List.filter_cons]
    unfold Kpis.saldoPorCliente
    rw [h]
    exact round2_eq_self ⟨10000, by norm_num⟩
  have hsB : Kpis.saldoPorCliente ssC6 "B" = -50 := by
    have h : ((ssC6.filter fun s => s.nombreCliente = "B").map
        fun s => s.saldo).sum = -50 := by
      simp +decide [ssC6, List.filter_cons]
    unfold Kpis.saldoPorCliente
    rw [h]
    exact round2_eq_self ⟨-5000, by norm_num⟩
  unfold Kpis.porCliente
  rw [hcu]
  simp only [List.map_cons, List.map_nil, hsA, hsB]
  refine List.mergeSort_of_sorted ?_
  refine List.pairwise_cons.mpr ⟨?_, ?_⟩
  · intro p hp
    simp only [List.mem_singleton] at hp
    subst hp
    simp only [decide_eq_true_eq]
    norm_num
  · simp

/-- Counterexample to C6 as stated: a negative per-client balance
(overpayment) makes the cumulative-percentage column decrease — on
`ssC6` it reads [200, 100]. -/
theorem concentracion_acumulado_contraejemplo :
    ((Kpis.calcularConcentracion ssC6).map fun f => f.pctAcumulado)
      = [200, 100]
    ∧ ¬ List.Chain' (fun a b => a.pctAcumulado ≤ b.pctAcumulado)
        (Kpis.calcularConcentracion ssC6) := by
  have h1 : round2 (200 : ℚ) = 200 := round2_eq_self ⟨20000, by norm_num⟩
  have h2 : round2 (-100 : ℚ) = -100 := round2_eq_self ⟨-10000, by norm_num⟩
  have h3 : round2 (100 : ℚ) = 100 := round2_eq_self ⟨10000, by norm_num⟩
  have hcalc : Kpis.calcularConcentracion ssC6
      = [ { nombreCliente := "A", saldo := 100, pctDelTotal := 200,
            pctAcumulado := 200, clasificacion := "C" },
          { nombreCliente := "B", saldo := -50, pctDelTotal := -100,
            pctAcumulado := 100, clasificacion := "C" } ] := by
    simp only [Kpis.calcularConcentracion, ssC6_porCliente, List.map_cons,
      List.map_nil, List.sum_cons, List.sum_nil, Kpis.concAux]
    norm_num [h1, h2, h3]
  refine ⟨?_, ?_⟩
  · rw [hcalc]
    rfl
  · rw [hcalc]
    simp only [List.chain'_cons, List.chain'_singleton, and_true]
    norm_num

/-- Running sums of a list of increments, starting above `acc`. -/
def partialSums (acc : ℚ) : List ℚ → List ℚ
  | [] => []
  | p :: rest => (acc + p) :: partialSums (acc + p) rest

theorem concAux_map_acum (total : ℚ) :
    ∀ (l : List (String × ℚ)) (acc : ℚ), Centavos acc →
    ((Kpis.concAux total acc l).map fun f => f.pctAcumulado)
      = partialSums acc (l.map fun p => round2 (p.2 / total * 100)) := by
  intro l
  induction l with
  | nil => intro acc _; rfl
  | cons p rest ih =>
      intro acc hacc
      obtain ⟨c, s⟩ := p
      simp only [Kpis.concAux, List.map_cons, partialSums]
      have hc : Centavos (acc + round2 (s / total * 100)) :=
        centavos_add hacc (round2_centavos _)
      rw [round2_eq_self hc]
      exact congrArg (List.cons _) (ih _ hc)

theorem partialSums_chain (l : List ℚ) :
    ∀ acc : ℚ, (∀ x ∈ l, 0 ≤ x) →
    List.Chain' (fun a b => a ≤ b) (partialSums acc l) := by
  induction l with
  | nil =>
      intro acc _
      exact List.chain'_nil
  | cons p rest ih =>
      intro acc h
      simp only [partialSums]
      cases rest with
      | nil => simp [partialSums]
      | cons q rest2 =>
          simp only [partialSums]
          refine List.chain'_cons.mpr ⟨?_, ?_⟩
          · have hq : 0 ≤ q := h q (by simp)
            linarith
          · have := ih (acc + p) (fun x hx => h x (by simp [hx]))
            simpa [partialSums] using this

theorem partialSums_getLast (l : List ℚ) :
    ∀ acc : ℚ, l ≠ [] →
    (partialSums acc l).getLast? = some (acc + l.sum) := by
  induction l with
  | nil => intro acc h; exact absurd rfl h
  | cons p rest ih =>
      intro acc _
      cases rest with
      | nil => simp [partialSums]
      | cons q rest2 =>
          simp only [partialSums]
          rw [List.getLast?_cons_cons]
          have := ih (acc + p) (by simp)
          simp only [partialSums] at this
          rw [this]
          simp only [List.sum_cons]
          exact congrArg some (by ring)

theorem sum_round2_err (l : List ℚ) :
    |((l.map round2).sum) - l.sum| ≤ l.length / 200 := by
  induction l with
  | nil => simp
  | cons x rest ih =>
      simp only [List.map_cons, List.sum_cons, List.length_cons]
      have h1 := round2_sub_le x
      have h2 : |round2 x + ((rest.map round2).sum) - (x + rest.sum)|
          ≤ |round2 x - x| + |((rest.map round2).sum) - rest.sum| := by
        have : round2 x + ((rest.map round2).sum) - (x + rest.sum)
            = (round2 x - x) + (((rest.map round2).sum) - rest.sum) := by ring
        rw [this]
        exact abs_add _ _
      have h3 : |round2 x - x| + |((rest.map round2).sum) - rest.sum|
          ≤ 1/200 + rest.length / 200 := add_le_add h1 ih
      have h4 : (1 : ℚ)/200 + rest.length / 200
          = ((rest.length + 1 : ℕ) : ℚ) / 200 := by
        push_cast
        ring
      calc |round2 x + ((rest.map round2).sum) - (x + rest.sum)|
          ≤ 1/200 + rest.length / 200 := le_trans h2 h3
        _ = ((rest.length + 1 : ℕ) : ℚ) / 200 := h4

theorem sum_map_mul_right2 (l : List ℚ) (r : ℚ) :
    (l.map fun x => x * r).sum = l.sum * r := by
  induction l with
  | nil => simp
  | cons x rest ih => simp [ih, add_mul]

theorem sum_pct_exact (l : List ℚ) (total : ℚ) (h : total ≠ 0)
    (htot : l.sum = total) :
    (l.map fun s => s / total * 100).sum = 100 := by
  have h1 : (l.map fun s => s / total * 100) = l.map fun s => s * (100 / total) := by
    apply List.map_congr_left
    intro x _
    ring
  rw [h1, sum_map_mul_right2, htot]
  field_simp

/-- C6 (amended): provided every per-client grouped balance is
nonnegative, the cumulative-percentage column of a produced concentration
table is monotonically non-decreasing, and the last row's cumulative
percentage differs from 100 by at most n/200 (0.005 per client, the
worst-case accumulation of the per-row 2-decimal rounding), where n is
the number of clients.  With negative balances both parts fail (see the
counterexample), and with more than 20 clients the guaranteed tolerance
exceeds the spec's ±0.1. -/
theorem concentracion_monotona (ss : List Kpis.SaldoFac)
    (hpos : ∀ p ∈ Kpis.porCliente ss, 0 ≤ p.2) :
    List.Chain' (fun a b => a.pctAcumulado ≤ b.pctAcumulado)
      (Kpis.calcularConcentracion ss)
    ∧ ∀ f, (Kpis.calcularConcentracion ss).getLast? = some f →
        |f.pctAcumulado - 100| ≤ ((Kpis.porCliente ss).length : ℚ) / 200 := by
  by_cases htot : ((Kpis.porCliente ss).map fun p => p.2).sum ≤ 0
  · have hempty : Kpis.calcularConcentracion ss = [] := by
      simp only [Kpis.calcularConcentracion]
      rw [if_pos htot]
    rw [hempty]
    refine ⟨List.chain'_nil, ?_⟩
    intro f hf
    simp at hf
  · push_neg at htot
    have htne : ((Kpis.porCliente ss).map fun p => p.2).sum ≠ 0 :=
      ne_of_gt htot
    have hcalc : Kpis.calcularConcentracion ss
        = Kpis.concAux (((Kpis.porCliente ss).map fun p => p.2).sum) 0
          (Kpis.porCliente ss) := by
      simp only [Kpis.calcularConcentracion]
      rw [if_neg (not_le.mpr htot)]
    have hmap := concAux_map_acum
      (((Kpis.porCliente ss).map fun p => p.2).sum)
      (Kpis.porCliente ss) 0 centavos_zero
    have hpct : ∀ x ∈ (Kpis.porCliente ss).map
        (fun p => round2 (p.2 / ((Kpis.porCliente ss).map fun p => p.2).sum
          * 100)), 0 ≤ x := by
      intro x hx
      rw [List.mem_map] at hx
      obtain ⟨p, hp, rfl⟩ := hx
      apply round2_nonneg
      exact mul_nonneg (div_nonneg (hpos p hp) (le_of_lt htot)) (by norm_num)
    refine ⟨?_, ?_⟩
    · rw [hcalc]
      have hchain := partialSums_chain _ 0 hpct
      rw [← hmap] at hchain
      exact (List.chain'_map _).mp hchain
    · intro f hf
      have hne : Kpis.porCliente ss ≠ [] := by
        intro h0
        rw [h0] at htot
        simp at htot
      have hlast := partialSums_getLast
        ((Kpis.porCliente ss).map fun p =>
          round2 (p.2 / ((Kpis.porCliente ss).map fun p => p.2).sum * 100))
        0 (by simpa using hne)
      rw [← hmap, List.getLast?_map, ← hcalc, hf] at hlast
      have hfp : f.pctAcumulado
          = 0 + ((Kpis.porCliente ss).map fun p =>
              round2 (p.2 / ((Kpis.porCliente ss).map fun p => p.2).sum
                * 100)).sum := by
        simpa using hlast
      rw [hfp, zero_add]
      have hexact : (((Kpis.porCliente ss).map fun p => p.2).map
          fun s => s / ((Kpis.porCliente ss).map fun p => p.2).sum
            * 100).sum = 100 :=
        sum_pct_exact _ _ htne rfl
      have herr := sum_round2_err
        (((Kpis.porCliente ss).map fun p => p.2).map
          fun s => s / ((Kpis.porCliente ss).map fun p => p.2).sum * 100)
      rw [hexact] at herr
      have hshape : ((((Kpis.porCliente ss).map fun p => p.2).map
          fun s => s / ((Kpis.porCliente ss).map fun p => p.2).sum
            * 100).map round2)
          = (Kpis.porCliente ss).map fun p =>
              round2 (p.2 / ((Kpis.porCliente ss).map fun p => p.2).sum
                * 100) := by
        rw [List.map_map, List.map_map]
        rfl
      rw [hshape] at herr
      have hlen : ((((Kpis.porCliente ss).map fun p => p.2).map
          fun s => s / ((Kpis.porCliente ss).map fun p => p.2).sum
            * 100).length : ℚ) = ((Kpis.porCliente ss).length : ℚ) := by
        rw [List.length_map, List.length_map]
      rw [hlen] at herr
      exact herr

/-- Balance table with only nonnegative client balances. -/
def ssC6b : List Kpis.SaldoFac :=
  [ { doctoCcId := some 1, nombreCliente := "A", fechaVencimiento := none,
      fechaEmision := none, montoCargo := 100, montoAbonos := 0,
      saldo := 100 },
    { doctoCcId := some 2, nombreCliente := "B", fechaVencimiento := none,
      fechaEmision := none, montoCargo := 60, montoAbonos := 0,
      saldo := 60 } ]

theorem ssC6b_porCliente : Kpis.porCliente ssC6b = [("A", 100), ("B", 60)] := by
  have hd : ((ssC6b.map fun s => s.nombreCliente).dedup) = ["A", "B"] := by
    decide
  have hcu : Kpis.clientesUnicos ssC6b = ["A", "B"] := by
    unfold Kpis.clientesUnicos
    rw [hd]
    exact List.mergeSort_of_sorted (by decide)
  have hsA : Kpis.saldoPorCliente ssC6b "A" = 100 := by
    have h : ((ssC6b.filter fun s => s.nombreCliente = "A").map
        fun s => s.saldo).sum = 100 := by
      simp +decide [ssC6b, List.filter_cons]
    unfold Kpis.saldoPorCliente
    rw [h]
    exact round2_eq_self ⟨10000, by norm_num⟩
  have hsB : Kpis.saldoPorCliente ssC6b "B" = 60 := by
    have h : ((ssC6b.filter fun s => s.nombreCliente = "B").map
        fun s => s.saldo).sum = 60 := by
      simp +decide [ssC6b, List.filter_cons]
    unfold Kpis.saldoPorCliente
    rw [h]
    exact round2_eq_self ⟨6000, by norm_num⟩
  unfold Kpis.porCliente
  rw [hcu]
  simp only [List.map_cons, List.map_nil, hsA, hsB]
  refine List.mergeSort_of_sorted ?_
  refine List.pairwise_cons.mpr ⟨?_, ?_⟩
  · intro p hp
    simp only [List.mem_singleton] at hp
    subst hp
    simp only [decide_eq_true_eq]
    norm_num
  · simp

theorem concentracion_monotona_witness :
    (∀ p ∈ Kpis.porCliente ssC6b, 0 ≤ p.2)
    ∧ (List.Chain' (fun a b => a.pctAcumulado ≤ b.pctAcumulado)
        (Kpis.calcularConcentracion ssC6b)
      ∧ ∀ f, (Kpis.calcularConcentracion ssC6b).getLast? = some f →
          |f.pctAcumulado - 100| ≤ ((Kpis.porCliente ssC6b).length : ℚ) / 200) := by
  have hpos : ∀ p ∈ Kpis.porCliente ssC6b, 0 ≤ p.2 := by
    rw [ssC6b_porCliente]
    intro p hp
    simp only [List.mem_cons, List.not_mem_nil, or_false] at hp
    rcases hp with rfl | rfl <;> norm_num
  exact ⟨hpos, concentracion_monotona ssC6b hpos⟩

/-- The audit summary dictionary built by `Auditor._generar_resumen`,
minus the `fecha_auditoria` timestamp (nondeterministic wall-clock
value).  Its keys are fixed: there is no entry for the balance engine's
missing-linkage fallback. -/
structure Resumen where
  totalRegistros : ℕ
  importesAtipicos : ℕ
  recaudosAtipicos : ℕ
  morasAtipicas : ℕ
  sinTipoCliente : ℕ
  sinVendedor : ℕ
  cancelados : ℕ
  totalHallazgos : ℕ
  deriving DecidableEq, Repr

/-- Embedding of `Auditor.run_audit`'s summary: each detector runs on the
unfiltered prepared table; the two delta detectors only when a non-empty
operational report is supplied; `_generar_resumen` then records the
counts. -/
def Auditor.runAuditResumen (t : Tabla) (reporte : Option (List Fila))
    (u uR uM : ℚ) : Resumen :=
  let ia := Auditor.detectarImportesAtipicos t.filas u
  let stc := Auditor.detectarSinTipoCliente t
  let sv := Auditor.detectarSinVendedor t
  let canc := Auditor.analizarCancelados t
  let ra := match reporte with
    | some fs => if fs.isEmpty then [] else Auditor.recaudosAtipicos fs uR
    | none => []
  let ma := match reporte with
    | some fs => if fs.isEmpty then [] else Auditor.morasAtipicas fs uM
    | none => []
  { totalRegistros := t.filas.length
    importesAtipicos := ia.length
    recaudosAtipicos := ra.length
    morasAtipicas := ma.length
    sinTipoCliente := stc.length
    sinVendedor := sv.length
    cancelados := canc.length
    totalHallazgos := (ia.length + ra.length + ma.length + stc.length
      + sv.length + canc.length) }

/-- A charge of 100 with a linked payment of 40. -/
def tablaC7 : Tabla :=
  { filas := [
      { doctoCcId := some 1, tipoImpte := "C", importe := some 100 },
      { doctoCcId := some 2, doctoCcAcrId := some 1, tipoImpte := "R",
        importe := some 40 } ] }

/-- The same rows with the `DOCTO_CC_ACR_ID` column absent. -/
def tablaC7sin : Tabla := { tablaC7 with tieneAcrId := false }

/-- Counterexample to C7 as stated: with the linkage column absent the
fallback changes the charge's balance from 60 to the full 100, yet the
audit summary is exactly the same as with the column present — the
fallback is only logged, never flagged in the audit output. -/
theorem fallback_sin_bandera_contraejemplo :
    ((ReporteCxc.calcularSaldoFactura tablaC7).filas.map
        fun r => r.saldoFactura) = [some 60, none]
    ∧ ((ReporteCxc.calcularSaldoFactura tablaC7sin).filas.map
        fun r => r.saldoFactura) = [some 100, none]
    ∧ Auditor.runAuditResumen tablaC7sin none 3 3 3
        = Auditor.runAuditResumen tablaC7 none 3 3 3 := by
  have h60 : round2 (60 : ℚ) = 60 := round2_eq_self ⟨6000, by norm_num⟩
  have h100 : round2 (100 : ℚ) = 100 := round2_eq_self ⟨10000, by norm_num⟩
  refine ⟨?_, ?_, rfl⟩
  · simp +decide [ReporteCxc.calcularSaldoFactura,
      ReporteCxc.abonosVinculados, tablaC7, monto, List.filter_cons]
    norm_num [h60]
  · simp +decide [ReporteCxc.calcularSaldoFactura, tablaC7sin, tablaC7,
      monto]
    norm_num [h100]

/-- C7 (amended): when the linkage column is absent the balance engine
falls back to `SALDO_FACTURA = round2(IMPORTE + IMPUESTO)` for every
charge (non-charges keep a null balance), but the fallback is only
logged: the audit summary has a fixed set of keys and is invariant under
the presence or absence of the linkage column. -/
theorem fallback_saldo_completo (t : Tabla) (rep : Option (List Fila))
    (u uR uM : ℚ) (h : t.tieneAcrId = false) :
    ((ReporteCxc.calcularSaldoFactura t).filas.map fun r => r.saldoFactura)
      = t.filas.map (fun r => if r.tipoImpte = "C"
          then some (round2 (monto r)) else r.saldoFactura)
    ∧ Auditor.runAuditResumen { t with tieneAcrId := true } rep u uR uM
        = Auditor.runAuditResumen t rep u uR uM := by
  constructor
  · have hcond : ¬ (t.tieneAcrId = true ∧ t.tieneDoctoId = true) := by
      simp [h]
    simp only [ReporteCxc.calcularSaldoFactura]
    rw [if_neg hcond, List.map_map]
    apply List.map_congr_left
    intro r _
    by_cases hr : r.tipoImpte = "C" <;> simp [hr]
  · rfl

theorem fallback_saldo_completo_witness :
    tablaC7sin.tieneAcrId = false
    ∧ (((ReporteCxc.calcularSaldoFactura tablaC7sin).filas.map
          fun r => r.saldoFactura)
        = tablaC7sin.filas.map (fun r => if r.tipoImpte = "C"
            then some (round2 (monto r)) else r.saldoFactura)
      ∧ Auditor.runAuditResumen { tablaC7sin with tieneAcrId := true }
          none 3 3 3
        = Auditor.runAuditResumen tablaC7sin none 3 3 3) :=
  ⟨rfl, fallback_saldo_completo tablaC7sin none 3 3 3 rfl⟩

namespace ReporteCxc

/-- `TIPO_IMPTE == 'C'` and `SALDO_FACTURA == 0` — a fully paid invoice
(`pagadas` mask; a null balance compares as false, like NaN). -/
def pagada (r : Fila) : Bool :=
  decide (r.tipoImpte = "C") &&
    (match r.saldoFactura with
     | some s => decide (s = 0)
     | none => false)

/-- `TIPO_IMPTE == 'C'` and `SALDO_FACTURA > 0` — an open invoice
(`abiertas` mask). -/
def abierta (r : Fila) : Bool :=
  decide (r.tipoImpte = "C") &&
    (match r.saldoFactura with
     | some s => decide (0 < s)
     | none => false)

/-- `FECHA_EMISION.max()` over the non-null-reference payments linked to
charge id `i` — the `ultimo_abono` groupby (null when the group is empty
or has no dates). -/
def ultimoAbono (filas : List Fila) (i : ℤ) : Option ℤ :=
  ((filas.filter fun p =>
      p.tipoImpte = "R" ∧ p.doctoCcAcrId = some i).filterMap
    fun p => p.fechaEmision).max?

/-- `DELTA_RECAUDO` of a paid charge: last linked payment date minus the
due date, in days; null when the id, the payment date or the due date is
missing. -/
def deltaRecaudoDe (filas : List Fila) (r : Fila) : Option ℚ :=
  match r.doctoCcId with
  | none => none
  | some i =>
      match ultimoAbono filas i with
      | none => none
      | some f =>
          match r.fechaVencimiento with
          | none => none
          | some v => some ((f - v : ℤ) : ℚ)

/-- The `np.select` classification of `DELTA_RECAUDO` (default empty). -/
def categoriaRecaudoDe : Option ℚ → String
  | none => ""
  | some d =>
      if d < 0 then "Pago anticipado"
      else if d = 0 then "Pago puntual"
      else if 1 ≤ d ∧ d ≤ 15 then "Retraso leve (1-15)"
      else if 16 ≤ d ∧ d ≤ 30 then "Retraso moderado (16-30)"
      else if 31 ≤ d ∧ d ≤ 60 then "Retraso alto (31-60)"
      else if 60 < d then "Retraso critico (>60)"
      else ""

/-- `DELTA_MORA` of an open charge: today minus the due date, in days. -/
def deltaMoraDe (hoy : ℤ) (r : Fila) : Option ℚ :=
  match r.fechaVencimiento with
  | none => none
  | some v => some ((hoy - v : ℤ) : ℚ)

/-- The `np.select` classification of `DELTA_MORA` (default empty). -/
def categoriaMoraDe : Option ℚ → String
  | none => ""
  | some d =>
      if d ≤ 0 then "Por vencer"
      else if 1 ≤ d ∧ d ≤ 30 then "Mora temprana (1-30)"
      else if 31 ≤ d ∧ d ≤ 60 then "Mora media (31-60)"
      else if 61 ≤ d ∧ d ≤ 90 then "Mora alta (61-90)"
      else if 90 < d then "Mora critica (>90)"
      else ""

/-- The initial reset: `DELTA_* = NaN`, `CATEGORIA_* = ""` on every
row. -/
def resetCiclo (r : Fila) : Fila :=
  { r with deltaRecaudo := none, categoriaRecaudo := "",
           deltaMora := none, categoriaMora := "" }

/-- The paid-invoice block applied to one row. -/
def aplicaRecaudo (base : List Fila) (r : Fila) : Fila :=
  if pagada r then
    let d := deltaRecaudoDe base r
    { r with deltaRecaudo := d, categoriaRecaudo := categoriaRecaudoDe d }
  else r

/-- The open-invoice block applied to one row. -/
def aplicaMora (hoy : ℤ) (r : Fila) : Fila :=
  if abierta r then
    let d := deltaMoraDe hoy r
    { r with deltaMora := d, categoriaMora := categoriaMoraDe d }
  else r

/-- Embedding of `reporte_cxc._calcular_metricas_ciclo`: reset the four
cycle columns, then fill `DELTA_RECAUDO`/`CATEGORIA_RECAUDO` on the paid
charges (when some exist and both linkage columns are present) and
`DELTA_MORA`/`CATEGORIA_MORA` on the open charges (when some exist). -/
def calcularMetricasCiclo (t : Tabla) (hoy : ℤ) : Tabla :=
  let base := t.filas.map resetCiclo
  let conRecaudo := if base.any pagada ∧ t.tieneAcrId ∧ t.tieneDoctoId
    then base.map (aplicaRecaudo base) else base
  let conMora := if conRecaudo.any abierta
    then conRecaudo.map (aplicaMora hoy) else conRecaudo
  { t with filas := conMora }

/-- The open charges (`SALDO_FACTURA > 0`) of the report. -/
def cargosAbiertos (fs : List Fila) : List Fila := fs.filter abierta

/-- The fully paid charges (`SALDO_FACTURA == 0`) of the report. -/
def cargosCerrados (fs : List Fila) : List Fila := fs.filter pagada

/-- The payments whose non-null reference lies in `ids`
(`DOCTO_CC_ACR_ID.isin(ids)`). -/
def abonosDeIds (fs : List Fila) (ids : List ℤ) : List Fila :=
  fs.filter fun r => decide (r.tipoImpte = "R") &&
    (match r.doctoCcAcrId with
     | some i => ids.contains i
     | none => false)

/-- Embedding of `reporte_cxc._extraer_facturas_abiertas`: the open
charges plus their linked payments; empty when there is no open charge.
The presentational `agregar_bandas_grupo` decoration is not modelled. -/
def extraerFacturasAbiertas (fs : List Fila) : List Fila :=
  let ca := cargosAbiertos fs
  if ca.isEmpty then []
  else
    let ids := ca.filterMap fun r => r.doctoCcId
    ca ++ (if ids.isEmpty then [] else abonosDeIds fs ids)

/-- Embedding of `reporte_cxc._extraer_facturas_cerradas`: the fully
paid charges plus their linked payments; empty when there is no paid
charge. -/
def extraerFacturasCerradas (fs : List Fila) : List Fila :=
  let cc := cargosCerrados fs
  if cc.isEmpty then []
  else
    let ids := cc.filterMap fun r => r.doctoCcId
    cc ++ (if ids.isEmpty then [] else abonosDeIds fs ids)

end ReporteCxc

def filaC8c : Fila :=
  { doctoCcId := some 1, tipoImpte := "C", importe := some 100 }

def filaC8p : Fila :=
  { doctoCcId := some 2, doctoCcAcrId := some 1, tipoImpte := "R",
    importe := some 150 }

/-- A charge of 100 overpaid by a linked payment of 150. -/
def tablaC8 : Tabla := { filas := [filaC8c, filaC8p] }

/-- The charge row as it leaves the balance engine: balance −50. -/
def cargoC8 : Fila := { filaC8c with saldoFactura := some (-50) }

theorem tablaC8_saldos :
    (ReporteCxc.calcularSaldoFactura tablaC8).filas = [cargoC8, filaC8p] := by
  have hm50 : round2 (-50 : ℚ) = -50 := round2_eq_self ⟨-5000, by norm_num⟩
  simp +decide [ReporteCxc.calcularSaldoFactura, ReporteCxc.abonosVinculados,
    tablaC8, filaC8c, filaC8p, cargoC8, monto, List.filter_cons]
  norm_num [hm50]

theorem abierta_cargoC8 : ReporteCxc.abierta cargoC8 = false := by
  simp only [ReporteCxc.abierta, cargoC8, filaC8c]
  rw [Bool.and_eq_false_iff]
  right
  rw [decide_eq_false_iff_not]
  norm_num

theorem pagada_cargoC8 : ReporteCxc.pagada cargoC8 = false := by
  simp only [ReporteCxc.pagada, cargoC8, filaC8c]
  rw [Bool.and_eq_false_iff]
  right
  rw [decide_eq_false_iff_not]
  norm_num

/-- Counterexample to C8 as stated: the overpaid charge ends with
balance −50 and is silently excluded from BOTH the open-invoices view
(balance > 0) and the closed-invoices view (balance == 0). -/
theorem saldo_negativo_contraejemplo :
    ((ReporteCxc.calcularSaldoFactura tablaC8).filas.map
        fun r => r.saldoFactura) = [some (-50), none]
    ∧ ReporteCxc.extraerFacturasAbiertas
        (ReporteCxc.calcularSaldoFactura tablaC8).filas = []
    ∧ ReporteCxc.extraerFacturasCerradas
        (ReporteCxc.calcularSaldoFactura tablaC8).filas = [] := by
  have habp : ReporteCxc.abierta filaC8p = false := by
    simp +decide [ReporteCxc.abierta, filaC8p]
  have hpagp : ReporteCxc.pagada filaC8p = false := by
    simp +decide [ReporteCxc.pagada, filaC8p]
  refine ⟨?_, ?_, ?_⟩
  · rw [tablaC8_saldos]
    rfl
  · rw [tablaC8_saldos]
    have hca : ReporteCxc.cargosAbiertos [cargoC8, filaC8p] = [] := by
      simp [ReporteCxc.cargosAbiertos, List.filter_cons, abierta_cargoC8,
        habp]
    simp [ReporteCxc.extraerFacturasAbiertas, hca]
  · rw [tablaC8_saldos]
    have hcc : ReporteCxc.cargosCerrados [cargoC8, filaC8p] = [] := by
      simp [ReporteCxc.cargosCerrados, List.filter_cons, pagada_cargoC8,
        hpagp]
    simp [ReporteCxc.extraerFacturasCerradas, hcc]

theorem abierta_of_neg {r : Fila} {s : ℚ} (hs : r.saldoFactura = some s)
    (hneg : s < 0) : ReporteCxc.abierta r = false := by
  simp only [ReporteCxc.abierta, hs]
  rw [Bool.and_eq_false_iff]
  right
  rw [decide_eq_false_iff_not]
  linarith

theorem pagada_of_neg {r : Fila} {s : ℚ} (hs : r.saldoFactura = some s)
    (hneg : s < 0) : ReporteCxc.pagada r = false := by
  simp only [ReporteCxc.pagada, hs]
  rw [Bool.and_eq_false_iff]
  right
  rw [decide_eq_false_iff_not]
  intro h
  rw [h] at hneg
  exact lt_irrefl 0 hneg

theorem no_en_abiertas {fs : List Fila} {r : Fila}
    (hC : r.tipoImpte = "C") (hab : ReporteCxc.abierta r = false) :
    r ∉ ReporteCxc.extraerFacturasAbiertas fs := by
  intro hmem
  simp only [ReporteCxc.extraerFacturasAbiertas] at hmem
  by_cases h1 : (ReporteCxc.cargosAbiertos fs).isEmpty
  · rw [if_pos h1] at hmem
    exact absurd hmem (List.not_mem_nil r)
  · rw [if_neg h1] at hmem
    rcases List.mem_append.mp hmem with h2 | h2
    · rw [ReporteCxc.cargosAbiertos, List.mem_filter] at h2
      rw [hab] at h2
      exact absurd h2.2 (by simp)
    · split at h2
      · exact absurd h2 (List.not_mem_nil r)
      · rw [ReporteCxc.abonosDeIds, List.mem_filter] at h2
        have h3 := h2.2
        rw [Bool.and_eq_true] at h3
        rw [hC] at h3
        exact absurd h3.1 (by simp)

theorem no_en_cerradas {fs : List Fila} {r : Fila}
    (hC : r.tipoImpte = "C") (hpag : ReporteCxc.pagada r = false) :
    r ∉ ReporteCxc.extraerFacturasCerradas fs := by
  intro hmem
  simp only [ReporteCxc.extraerFacturasCerradas] at hmem
  by_cases h1 : (ReporteCxc.cargosCerrados fs).isEmpty
  · rw [if_pos h1] at hmem
    exact absurd hmem (List.not_mem_nil r)
  · rw [if_neg h1] at hmem
    rcases List.mem_append.mp hmem with h2 | h2
    · rw [ReporteCxc.cargosCerrados, List.mem_filter] at h2
      rw [hpag] at h2
      exact absurd h2.2 (by simp)
    · split at h2
      · exact absurd h2 (List.not_mem_nil r)
      · rw [ReporteCxc.abonosDeIds, List.mem_filter] at h2
        have h3 := h2.2
        rw [Bool.and_eq_true] at h3
        rw [hC] at h3
        exact absurd h3.1 (by simp)

theorem metricas_proj (t : Tabla) (hoy : ℤ) :
    ((ReporteCxc.calcularMetricasCiclo t hoy).filas.map
        fun x => (x.tipoImpte, x.saldoFactura))
      = t.filas.map fun x => (x.tipoImpte, x.saldoFactura) := by
  have hA : ∀ B L : List Fila,
      ((L.map (ReporteCxc.aplicaRecaudo B)).map
        fun x => (x.tipoImpte, x.saldoFactura))
      = L.map fun x => (x.tipoImpte, x.saldoFactura) := by
    intro B L
    rw [List.map_map]
    apply List.map_congr_left
    intro x _
    by_cases h : ReporteCxc.pagada x = true <;>
      simp [ReporteCxc.aplicaRecaudo, h]
  have hM : ∀ L : List Fila,
      ((L.map (ReporteCxc.aplicaMora hoy)).map
        fun x => (x.tipoImpte, x.saldoFactura))
      = L.map fun x => (x.tipoImpte, x.saldoFactura) := by
    intro L
    rw [List.map_map]
    apply List.map_congr_left
    intro x _
    by_cases h : ReporteCxc.abierta x = true <;>
      simp [ReporteCxc.aplicaMora, h]
  have h0 : ((t.filas.map ReporteCxc.resetCiclo).map
      fun x => (x.tipoImpte, x.saldoFactura))
      = t.filas.map fun x => (x.tipoImpte, x.saldoFactura) := by
    rw [List.map_map]
    apply List.map_congr_left
    intro x _
    rfl
  simp only [ReporteCxc.calcularMetricasCiclo]
  split
  · split
    · rw [hM, hA]
      exact h0
    · rw [hA]
      exact h0
  · split
    · rw [hM]
      exact h0
    · exact h0

theorem neg_recaudo {B : List Fila} {z : Fila} {s2 : ℚ}
    (hz : (ReporteCxc.aplicaRecaudo B z).saldoFactura = some s2)
    (hneg : s2 < 0) : ReporteCxc.aplicaRecaudo B z = z := by
  by_cases h : ReporteCxc.pagada z = true
  · exfalso
    have hzs : z.saldoFactura = some s2 := by
      simpa [ReporteCxc.aplicaRecaudo, h] using hz
    rw [ReporteCxc.pagada, hzs, Bool.and_eq_true] at h
    have := of_decide_eq_true h.2
    rw [this] at hneg
    exact lt_irrefl 0 hneg
  · simp [ReporteCxc.aplicaRecaudo, h]

theorem neg_mora {hoy : ℤ} {z : Fila} {s2 : ℚ}
    (hz : (ReporteCxc.aplicaMora hoy z).saldoFactura = some s2)
    (hneg : s2 < 0) : ReporteCxc.aplicaMora hoy z = z := by
  by_cases h : ReporteCxc.abierta z = true
  · exfalso
    have hzs : z.saldoFactura = some s2 := by
      simpa [ReporteCxc.aplicaMora, h] using hz
    rw [ReporteCxc.abierta, hzs, Bool.and_eq_true] at h
    have := of_decide_eq_true h.2
    linarith
  · simp [ReporteCxc.aplicaMora, h]

theorem metricas_limpias (t : Tabla) (hoy : ℤ) :
    ∀ x ∈ (ReporteCxc.calcularMetricasCiclo t hoy).filas,
      ∀ s2 : ℚ, x.saldoFactura = some s2 → s2 < 0 →
        x.deltaRecaudo = none ∧ x.categoriaRecaudo = ""
        ∧ x.deltaMora = none ∧ x.categoriaMora = "" := by
  intro x hx s2 hs2 hneg
  have hbase : ∀ y ∈ t.filas.map ReporteCxc.resetCiclo,
      y.deltaRecaudo = none ∧ y.categoriaRecaudo = ""
      ∧ y.deltaMora = none ∧ y.categoriaMora = "" := by
    intro y hy
    rw [List.mem_map] at hy
    obtain ⟨w, -, rfl⟩ := hy
    exact ⟨rfl, rfl, rfl, rfl⟩
  simp only [ReporteCxc.calcularMetricasCiclo] at hx
  split at hx
  · split at hx
    · rw [List.mem_map] at hx
      obtain ⟨y, hy, rfl⟩ := hx
      have he := neg_mora hs2 hneg
      rw [he] at hs2 ⊢
      rw [List.mem_map] at hy
      obtain ⟨z, hz, rfl⟩ := hy
      have he2 := neg_recaudo hs2 hneg
      rw [he2] at hs2 ⊢
      exact hbase z hz
    · rw [List.mem_map] at hx
      obtain ⟨z, hz, rfl⟩ := hx
      have he := neg_recaudo hs2 hneg
      rw [he] at hs2 ⊢
      exact hbase z hz
  · split at hx
    · rw [List.mem_map] at hx
      obtain ⟨y, hy, rfl⟩ := hx
      have he := neg_mora hs2 hneg
      rw [he] at hs2 ⊢
      exact hbase y hy
    · exact hbase x hx

/-- C8 (amended): a charge whose computed balance is negative is
retained, unclamped, in the full operational report (the cycle-metrics
step preserves every row's type and balance), but it is silently
excluded from BOTH the open-invoices view and the closed-invoices view,
and it receives no collection or aging delta/category (all four cycle
columns stay null/empty). -/
theorem saldo_negativo_invisible (t : Tabla) (hoy : ℤ) (fs : List Fila)
    (r : Fila) (s : ℚ) ( _hr : r ∈ fs) (hC : r.tipoImpte = "C")
    (hs : r.saldoFactura = some s) (hneg : s < 0) :
    (r ∉ ReporteCxc.extraerFacturasAbiertas fs
      ∧ r ∉ ReporteCxc.extraerFacturasCerradas fs)
    ∧ ((ReporteCxc.calcularMetricasCiclo t hoy).filas.map
          fun x => (x.tipoImpte, x.saldoFactura))
        = (t.filas.map fun x => (x.tipoImpte, x.saldoFactura))
    ∧ (∀ x ∈ (ReporteCxc.calcularMetricasCiclo t hoy).filas,
        ∀ s2 : ℚ, x.saldoFactura = some s2 → s2 < 0 →
          x.deltaRecaudo = none ∧ x.categoriaRecaudo = ""
          ∧ x.deltaMora = none ∧ x.categoriaMora = "") :=
  ⟨⟨no_en_abiertas hC (abierta_of_neg hs hneg),
    no_en_cerradas hC (pagada_of_neg hs hneg)⟩,
   metricas_proj t hoy, metricas_limpias t hoy⟩

theorem saldo_negativo_invisible_witness :
    (cargoC8 ∈ (ReporteCxc.calcularSaldoFactura tablaC8).filas
      ∧ cargoC8.tipoImpte = "C"
      ∧ cargoC8.saldoFactura = some (-50)
      ∧ (-50 : ℚ) < 0)
    ∧ ((cargoC8 ∉ ReporteCxc.extraerFacturasAbiertas
          (ReporteCxc.calcularSaldoFactura tablaC8).filas
        ∧ cargoC8 ∉ ReporteCxc.extraerFacturasCerradas
          (ReporteCxc.calcularSaldoFactura tablaC8).filas)
      ∧ ((ReporteCxc.calcularMetricasCiclo
            (ReporteCxc.calcularSaldoFactura tablaC8) 0).filas.map
            fun x => (x.tipoImpte, x.saldoFactura))
          = ((ReporteCxc.calcularSaldoFactura tablaC8).filas.map
              fun x => (x.tipoImpte, x.saldoFactura))
      ∧ (∀ x ∈ (ReporteCxc.calcularMetricasCiclo
            (ReporteCxc.calcularSaldoFactura tablaC8) 0).filas,
          ∀ s2 : ℚ, x.saldoFactura = some s2 → s2 < 0 →
            x.deltaRecaudo = none ∧ x.categoriaRecaudo = ""
            ∧ x.deltaMora = none ∧ x.categoriaMora = "")) := by
  have hmem : cargoC8 ∈ (ReporteCxc.calcularSaldoFactura tablaC8).filas := by
    rw [tablaC8_saldos]
    exact List.mem_cons_self _ _
  exact ⟨⟨hmem, rfl, rfl, by norm_num⟩,
    saldo_negativo_invisible (ReporteCxc.calcularSaldoFactura tablaC8) 0
      (ReporteCxc.calcularSaldoFactura tablaC8).filas cargoC8 (-50) hmem
      rfl rfl (by norm_num)⟩

end CxC
